import Mathlib

/-!
# Verification of the clawtrello OpenClaw gateway client

Shallow embedding of `src/openclawGateway.ts` (the resilient gateway
client), together with the pieces of `src/store.ts`, `src/types.ts` and
the inbound-dispatch pipeline that the verified properties mention.

Conventions used throughout:
* JavaScript runtime values carried by wire frames are modelled by the
  inductive `Json` below; `a?.b` optional chaining is `Json.get?`,
  `a ?? b` nullish coalescing is `jsOrElse`, and JS truthiness is
  `Json.truthy`.
* Stateful methods become pure functions from an explicit state/environment
  to a result plus the trace of externally visible effects (frames sent,
  delegation-store writes, audit appends).
* `console.*` logging and timestamp bookkeeping (`lastHelloAt`,
  `lastHealthAt`, ...) are side effects with no bearing on the verified
  properties and are not modelled.
-/

namespace Clawtrello

mutual

/-- Model of a JavaScript JSON value (a parsed wire frame or any field of
one).  Numbers are modelled as integers: no property below depends on
fractional values.  Arrays and objects use the mutually defined list
types `JsonList` / `JsonFields` so that equality is derivable. -/
inductive Json where
  | null : Json
  | bool (b : Bool) : Json
  | num (n : Int) : Json
  | str (s : String) : Json
  | arr (elems : JsonList) : Json
  | obj (fields : JsonFields) : Json

inductive JsonList where
  | nil : JsonList
  | cons (hd : Json) (tl : JsonList) : JsonList

inductive JsonFields where
  | nil : JsonFields
  | cons (key : String) (val : Json) (tl : JsonFields) : JsonFields

end

deriving instance DecidableEq for Json, JsonList, JsonFields

/-- The elements of a JSON array, as an ordinary list. -/
def JsonList.toList : JsonList → List Json
  | .nil => []
  | .cons x xs => x :: xs.toList

/-- Build a JSON array value from an ordinary list. -/
def JsonList.ofList : List Json → JsonList
  | [] => .nil
  | x :: xs => .cons x (ofList xs)

/-- First binding of a key in a JSON object, JS property lookup. -/
def JsonFields.lookup : JsonFields → String → Option Json
  | .nil, _ => none
  | .cons k v tl, key => if k = key then some v else tl.lookup key

/-- Build a JSON object value from an ordinary association list. -/
def JsonFields.ofList : List (String × Json) → JsonFields
  | [] => .nil
  | (k, v) :: xs => .cons k v (ofList xs)

namespace Json

/-- `v?.k` property access: an object yields its first binding for `k`
(`none` models JS `undefined`), anything else yields `undefined`. -/
def get? : Json → String → Option Json
  | .obj fields, k => fields.lookup k
  | _, _ => none

/-- Two-step optional chain `v?.k1?.k2`. -/
def get2? (v : Json) (k1 k2 : String) : Option Json :=
  (v.get? k1).bind (·.get? k2)

/-- Three-step optional chain `v?.k1?.k2?.k3`. -/
def get3? (v : Json) (k1 k2 k3 : String) : Option Json :=
  ((v.get? k1).bind (·.get? k2)).bind (·.get? k3)

/-- JS truthiness of a value. -/
def truthy : Json → Bool
  | .null => false
  | .bool b => b
  | .num n => n != 0
  | .str s => s != ""
  | .arr _ => true
  | .obj _ => true

end Json

/-- JS truthiness of a possibly-`undefined` value (`undefined` is falsy). -/
def jsTruthy : Option Json → Bool
  | some v => v.truthy
  | none => false

/-- `a ?? b` nullish coalescing: `a` unless it is `undefined` or `null`. -/
def jsOrElse (a b : Option Json) : Option Json :=
  match a with
  | none => b
  | some .null => b
  | some v => some v

/-! ## Work-item stages and the stage transition guard
(`src/types.ts` `Stage`, `openclawGateway.ts` `isAllowedAutoTransition`,
`maybeMoveCardStage`). -/

/-- `src/types.ts`: `type Stage = 'backlog' | 'in_progress' | 'review' |
'blocked' | 'done'`. -/
inductive Stage where
  | backlog
  | in_progress
  | review
  | blocked
  | done
deriving DecidableEq, Repr

/-- Derivable finiteness of `Stage`, used to decide universally quantified
statements over stages. -/
instance : Fintype Stage where
  elems := {Stage.backlog, Stage.in_progress, Stage.review, Stage.blocked, Stage.done}
  complete := by intro s; cases s <;> decide

/-- The card fields the gateway client reads (`src/types.ts` `Card`,
restricted to `id` and `stage`; the other fields are never consulted by
the verified code paths). -/
structure Card where
  id : String
  stage : Stage
deriving DecidableEq, Repr

/-- `OpenClawGateway.isAllowedAutoTransition`: the `allowedTransitions`
record literal, as a function from the current stage to the allowed
targets. -/
def allowedTransitions : Stage → List Stage
  | .backlog => [.in_progress]
  | .in_progress => [.review, .blocked]
  | .review => [.blocked]
  | .blocked => [.in_progress]
  | .done => []

/-- `OpenClawGateway.isAllowedAutoTransition(currentStage, nextStage)`. -/
def isAllowedAutoTransition (currentStage nextStage : Stage) : Bool :=
  if currentStage = nextStage then false
  else (allowedTransitions currentStage).contains nextStage

/-- `OpenClawGateway.maybeMoveCardStage(cardId, stageUpdate)`: given the
result of `getCard(cardId)`, returns `some target` exactly when
`moveCard(cardId, stageUpdate)` is invoked (with that target stage), and
`none` when the guard performs no mutation. -/
def maybeMoveCardStage (card : Option Card) (stageUpdate : Stage) : Option Stage :=
  match card with
  | none => none
  | some c => if isAllowedAutoTransition c.stage stageUpdate then some stageUpdate else none

/-- The stage-suggestion step of `handleMessage`:
`if (normalizedEvent.stageUpdate) { await this.maybeMoveCardStage(...) }` —
an absent suggestion attempts no transition at all. -/
def applyStageSuggestion (card : Option Card) (suggestion : Option Stage) : Option Stage :=
  match suggestion with
  | none => none
  | some s => maybeMoveCardStage card s

/-- The legal auto-transition table of the specification, §3, written out
as explicit pairs (current stage, allowed target).  Kept separate from
`allowedTransitions` (translated from the source) so that the guard can be
checked against the table the specification states. -/
def specLegalTransitions : List (Stage × Stage) :=
  [(.backlog, .in_progress),
   (.in_progress, .review), (.in_progress, .blocked),
   (.review, .blocked),
   (.blocked, .in_progress)]

/-! ## JSON.stringify and substring search, used by the string-pattern
error classifiers (`isAgentMismatchError`, `isSchemaCompatibilityError`). -/

mutual

/-- `JSON.stringify` on a JSON value.  Escaping of special characters
inside strings is not modelled; none of the matched error substrings
contains a character that needs escaping. -/
def Json.stringify : Json → String
  | .null => "null"
  | .bool true => "true"
  | .bool false => "false"
  | .num n => toString n
  | .str s => "\"" ++ s ++ "\""
  | .arr xs => "[" ++ JsonList.stringifyElems xs ++ "]"
  | .obj fs => "\x7b" ++ JsonFields.stringifyFields fs ++ "\x7d"

/-- Comma-separated serialisation of array elements. -/
def JsonList.stringifyElems : JsonList → String
  | .nil => ""
  | .cons x .nil => Json.stringify x
  | .cons x xs => Json.stringify x ++ "," ++ JsonList.stringifyElems xs

/-- Comma-separated serialisation of object fields. -/
def JsonFields.stringifyFields : JsonFields → String
  | .nil => ""
  | .cons k v .nil => "\"" ++ k ++ "\":" ++ Json.stringify v
  | .cons k v fs => "\"" ++ k ++ "\":" ++ Json.stringify v ++ "," ++ JsonFields.stringifyFields fs

end

/-- Is `pat` the prefix of `s` starting at character index `i`? -/
def substringAt (s pat : String) (i : Nat) : Bool :=
  decide ((s.data.drop i).take pat.data.length = pat.data)

/-- JS `String.prototype.includes`: does `pat` occur in `s`? -/
def containsSub (s pat : String) : Bool :=
  (List.range (s.data.length + 1)).any (substringAt s pat)

/-- `String.prototype.toLowerCase()` (ASCII; none of the matched error
substrings needs more). -/
def lowerString (s : String) : String :=
  String.mk (s.data.map Char.toLower)

/-- A JavaScript error value, as far as the gateway client inspects one:
`val` is the value seen by property access and by `JSON.stringify` (for an
`Error` instance this is the object of its *enumerable own* properties,
normally empty, because `message`/`stack` are non-enumerable);
`isErrorInstance` records `error instanceof Error`; `strForm` is
`String(error)`. -/
structure GErr where
  val : Json
  isErrorInstance : Bool
  strForm : String
deriving DecidableEq

/-- `OpenClawGateway.isAgentMismatchError(error)`: false for a falsy
error, otherwise substring search over the lower-cased
`JSON.stringify(error)`. -/
def isAgentMismatchError (e : GErr) : Bool :=
  if !(e.isErrorInstance || e.val.truthy) then false
  else
    let message := lowerString (Json.stringify e.val)
    containsSub message "does not match session key" || containsSub message "agent mismatch"

/-- Yields a truthy, nonempty string value, as tested by `||` chains over
`message` fields; truthy non-string `message` values are not modelled (the
surrounding code would crash calling `.toLowerCase()` on them). -/
def jsTruthyString : Option Json → Option String
  | some (.str s) => if s = "" then none else some s
  | _ => none

/-- `OpenClawGateway.errorMessage(error)`:
`error?.error?.message || error?.message || String(error)`. -/
def errorMessage (e : GErr) : String :=
  match jsTruthyString (e.val.get2? "error" "message") with
  | some s => s
  | none =>
    match jsTruthyString (e.val.get? "message") with
    | some s => s
    | none => e.strForm

/-- `OpenClawGateway.isSchemaCompatibilityError(error)`. -/
def isSchemaCompatibilityError (e : GErr) : Bool :=
  let code := jsOrElse (e.val.get? "code") (e.val.get2? "error" "code")
  if code ≠ some (.str "INVALID_REQUEST") then false
  else
    let message := lowerString (errorMessage e)
    containsSub message "must have required property" ||
    containsSub message "unexpected property" ||
    containsSub message "schema" ||
    containsSub message "params"

/-! ## The event normalizer (`OpenClawGateway.normalizeGatewayEvent`). -/

/-- `OpenClawGateway.toJsonSafePayload(payload)`: a truthy non-array
object passes through, anything else is wrapped as `{value: payload}`. -/
def toJsonSafePayload (payload : Json) : Json :=
  match payload with
  | .obj fs => .obj fs
  | v => .obj (.cons "value" v .nil)

/-- The `NormalizedGatewayEvent` record of the source.  `actorAgentId` and
`externalStatus` keep the raw JSON values the source assigns to them. -/
structure NormalizedGatewayEvent where
  eventKey : String
  stageUpdate : Option Stage
  actorAgentId : Option Json
  delegationStatus : Option String
  externalStatus : Option Json
  payload : Json
deriving DecidableEq

/-- The explicit-error condition of `normalizeGatewayEvent` (its first
`if`): an error stream marker, the session-error type, an envelope-level
`ok === false`, or a truthy `error` field. -/
def errorIndicated (messageType : Option Json) (msg : Json) : Prop :=
  msg.get2? "payload" "stream" = some (.str "error") ∨
    messageType = some (.str "session.error") ∨
    msg.get? "ok" = some (.bool false) ∨ jsTruthy (msg.get? "error") = true

/-- The lifecycle-start condition of `normalizeGatewayEvent`
(`stream === 'lifecycle' && phase === 'start'`). -/
def lifecycleStart (msg : Json) : Prop :=
  msg.get2? "payload" "stream" = some (.str "lifecycle") ∧
    msg.get3? "payload" "data" "phase" = some (.str "start")

/-- The lifecycle-end condition of `normalizeGatewayEvent`. -/
def lifecycleEnd (msg : Json) : Prop :=
  msg.get2? "payload" "stream" = some (.str "lifecycle") ∧
    msg.get3? "payload" "data" "phase" = some (.str "end")

/-- The approval-required condition of `normalizeGatewayEvent`
(either spelling of the message type). -/
def approvalRequired (messageType : Option Json) : Prop :=
  messageType = some (.str "exec.approval.requested") ∨
    messageType = some (.str "exec.approval.request")

instance (messageType : Option Json) (msg : Json) : Decidable (errorIndicated messageType msg) := by
  unfold errorIndicated; infer_instance

instance (msg : Json) : Decidable (lifecycleStart msg) := by
  unfold lifecycleStart; infer_instance

instance (msg : Json) : Decidable (lifecycleEnd msg) := by
  unfold lifecycleEnd; infer_instance

instance (messageType : Option Json) : Decidable (approvalRequired messageType) := by
  unfold approvalRequired; infer_instance

/-- `OpenClawGateway.normalizeGatewayEvent(messageType, msg)`.
`messageType` is the value `msg?.type === 'event' ? msg?.event : msg?.type`
computed by `handleMessage`; `none` models `undefined`.  The dispatch
conditions are the named predicates above, which inline the source's
`stream`/`phase` locals. -/
def normalizeGatewayEvent (messageType : Option Json) (msg : Json) : Option NormalizedGatewayEvent :=
  let stream := msg.get2? "payload" "stream"
  let payloadArg := (jsOrElse (msg.get? "payload") (some msg)).getD msg
  if errorIndicated messageType msg then
    some { eventKey := "agent.error"
           stageUpdate := some .blocked
           delegationStatus := some "error"
           externalStatus :=
             if stream = some (.str "error") then some (.str "stream.error") else messageType
           actorAgentId := msg.get2? "payload" "agentId"
           payload := toJsonSafePayload payloadArg }
  else if lifecycleStart msg then
    some { eventKey := "agent.started"
           stageUpdate := some .in_progress
           delegationStatus := some "in_progress"
           externalStatus := some (.str "lifecycle.start")
           actorAgentId := msg.get2? "payload" "agentId"
           payload := toJsonSafePayload payloadArg }
  else if lifecycleEnd msg then
    some { eventKey := "agent.completed"
           stageUpdate := some .review
           delegationStatus := some "completed"
           externalStatus := some (.str "lifecycle.end")
           actorAgentId := msg.get2? "payload" "agentId"
           payload := toJsonSafePayload payloadArg }
  else if messageType = some (.str "session.updated") then
    some { eventKey := "agent.progress"
           stageUpdate := none
           delegationStatus := some "in_progress"
           externalStatus := msg.get2? "payload" "status"
           actorAgentId := msg.get2? "payload" "agentId"
           payload := toJsonSafePayload payloadArg }
  else if messageType = some (.str "session.completed") then
    some { eventKey := "agent.completed"
           stageUpdate := some .review
           delegationStatus := some "completed"
           externalStatus := some (.str "completed")
           actorAgentId := msg.get2? "payload" "agentId"
           payload := toJsonSafePayload payloadArg }
  else if approvalRequired messageType then
    some { eventKey := "approval.requested"
           stageUpdate := some .review
           delegationStatus := some "review"
           externalStatus := some (.str "approval.requested")
           actorAgentId := msg.get2? "payload" "agentId"
           payload := toJsonSafePayload payloadArg }
  else
    none

/-! ## Reconnect backoff (`scheduleReconnect` and the `hello-ok` branch of
`handleMessage`). -/

/-- Initial value of the `reconnectDelayMs` field and the value the
`hello-ok` branch resets it to. -/
def reconnectDelayFloor : Nat := 1000

/-- The `Math.min(..., 30_000)` ceiling in `scheduleReconnect`. -/
def reconnectDelayCeiling : Nat := 30000

/-- The backoff-relevant state: the current `reconnectDelayMs` plus the
trace of delays actually used when reconnects were scheduled. -/
structure BackoffState where
  reconnectDelayMs : Nat
  waits : List Nat
deriving DecidableEq, Repr

/-- Client construction: `private reconnectDelayMs = 1000`. -/
def initialBackoff : BackoffState :=
  { reconnectDelayMs := reconnectDelayFloor, waits := [] }

/-- `OpenClawGateway.scheduleReconnect()`: uses the current delay for the
timer, then doubles it capped at the ceiling. -/
def scheduleReconnectBackoff (s : BackoffState) : BackoffState :=
  { reconnectDelayMs := min (s.reconnectDelayMs * 2) reconnectDelayCeiling
    waits := s.waits ++ [s.reconnectDelayMs] }

/-- The `hello-ok` branch of `handleMessage`:
`this.reconnectDelayMs = 1000`. -/
def helloOkBackoff (s : BackoffState) : BackoffState :=
  { s with reconnectDelayMs := reconnectDelayFloor }

/-- The two connection events that touch the backoff state: a socket
close (which runs `scheduleReconnect`) and a completed handshake. -/
inductive ConnEvent where
  | disconnect
  | helloOk
deriving DecidableEq, Repr

/-- One backoff transition. -/
def backoffStep (s : BackoffState) : ConnEvent → BackoffState
  | .disconnect => scheduleReconnectBackoff s
  | .helloOk => helloOkBackoff s

/-- The backoff state after a sequence of connection events, starting
from a freshly constructed client. -/
def runBackoff (evs : List ConnEvent) : BackoffState :=
  evs.foldl backoffStep initialBackoff

/-! ## The correlator: `request`, `send`, `ensureMethod`, `runAgentTask`,
`rejectPendingRequests`. -/

/-- An outbound wire frame `{type:'req', id, method, params}`. -/
structure Frame where
  id : String
  method : String
  params : JsonFields
deriving DecidableEq

/-- The mutable client state consulted by the call path: the handshake
gate `isConnected`, whether `this.ws` exists with
`readyState === WebSocket.OPEN` (`wsOpen`), the pending-request map
(correlation ids in insertion order) and the supported-method set from the
last handshake. -/
structure GatewayState where
  isConnected : Bool
  wsOpen : Bool
  pendingRequests : List String
  supportedMethods : List String
deriving DecidableEq

/-- `OpenClawGateway.stripSessionKey(payload)`: drops the `sessionKey`
property. -/
def stripSessionKey (payload : JsonFields) : JsonFields :=
  match payload with
  | .nil => .nil
  | .cons k v tl => if k = "sessionKey" then stripSessionKey tl else .cons k v (stripSessionKey tl)

/-- How a call begins: the synchronous error thrown before any frame is
sent, or a registered pending entry awaiting its reply. -/
inductive CallStart where
  | unsupportedErr (message : String)
  | notConnectedErr (message : String)
  | sendFailedErr (message : String)
  | registered (requestId : String)
deriving DecidableEq

/-- Result of starting a call: its outcome, the frames that went out on
the socket, and the client state afterwards. -/
structure CallEffect where
  outcome : CallStart
  framesSent : List Frame
  finalState : GatewayState
deriving DecidableEq

/-- `OpenClawGateway.request(method, payload, timeoutMs)` up to the point
where the pending entry is registered.  `freshId` stands for the
`randomUUID()` correlation id. -/
def request (st : GatewayState) (method : String) (payload : JsonFields) (freshId : String) :
    CallEffect :=
  if !st.isConnected then
    ⟨.notConnectedErr ("openclaw gateway is not connected; cannot call " ++ method), [], st⟩
  else
    let finalParams := if method = "agent.wait" then stripSessionKey payload else payload
    if !st.wsOpen then
      ⟨.sendFailedErr "failed to send gateway request", [], st⟩
    else
      ⟨.registered freshId, [⟨freshId, method, finalParams⟩],
        { st with pendingRequests := st.pendingRequests ++ [freshId] }⟩

/-- `JSON.stringify` of an array of strings, as interpolated into the
`ensureMethod` error message. -/
def jsonStringifyStrings (xs : List String) : String :=
  "[" ++ String.intercalate "," (xs.map (fun s => "\"" ++ s ++ "\"")) ++ "]"

/-- `OpenClawGateway.ensureMethod(method)`: `none` when the method is
advertised, otherwise the message of the thrown `Error`. -/
def ensureMethod (supportedMethods : List String) (method : String) : Option String :=
  if supportedMethods.contains method then none
  else some ("Gateway does not advertise method " ++ method ++ ". Known methods: " ++
    jsonStringifyStrings supportedMethods)

/-- Parameters of `OpenClawGateway.runAgentTask`. -/
structure AgentTaskParams where
  agentId : String
  message : String
  sessionKey : String
  idempotencyKey : String
  timeoutSeconds : Option Nat
deriving DecidableEq

/-- `OpenClawGateway.runAgentTask(params)`: `ensureMethod('agent')` then
`request('agent', {...})`. -/
def runAgentTask (st : GatewayState) (p : AgentTaskParams) (freshId : String) : CallEffect :=
  match ensureMethod st.supportedMethods "agent" with
  | some emsg => ⟨.unsupportedErr emsg, [], st⟩
  | none =>
    request st "agent" (JsonFields.ofList
      [("idempotencyKey", .str p.idempotencyKey),
       ("agentId", .str p.agentId),
       ("sessionKey", .str p.sessionKey),
       ("message", .str p.message),
       ("timeout", .num (Int.ofNat (p.timeoutSeconds.getD 600)))]) freshId

/-- The error every pending call is rejected with when the socket closes
(`new Error('gateway websocket closed')` in the `close` handler). -/
def connectionLostError : String := "gateway websocket closed"

/-- `OpenClawGateway.rejectPendingRequests(error)`: iterates the live
pending map (each iteration cancels the entry's timer, rejects its
promise with `error` and deletes the entry).  The input is the list of
pending correlation ids in insertion order; the output is the remaining
map paired with the rejection calls made, in order. -/
def rejectPendingRequests (pending : List String) (error : String) :
    List String × List (String × String) :=
  pending.foldl
    (fun acc requestId => (acc.1.filter (fun k => k ≠ requestId), acc.2 ++ [(requestId, error)]))
    (pending, [])

/-! ## Key-format negotiation (`spawnDelegation` and its helpers). -/

/-- `type SessionKeyFormatLabel = 'agent_card' | 'agentid_card' | 'legacy'
| 'custom'`. -/
inductive SessionKeyFormatLabel where
  | agent_card
  | agentid_card
  | legacy
  | custom
deriving DecidableEq, Repr

/-- The label string, as interpolated into error messages. -/
def labelString : SessionKeyFormatLabel → String
  | .agent_card => "agent_card"
  | .agentid_card => "agentid_card"
  | .legacy => "legacy"
  | .custom => "custom"

/-- `interface SessionKeyCandidate { label; key }`. -/
structure SessionKeyCandidate where
  label : SessionKeyFormatLabel
  key : String
deriving DecidableEq, Repr

/-- `OpenClawGateway.buildDelegationSessionKey(cardId, agentId)`. -/
def buildDelegationSessionKey (cardId agentId : String) : String :=
  "agent:" ++ agentId ++ ":card:" ++ cardId

/-- `OpenClawGateway.resolvePreferredSessionKeyCandidate(preferred,
cardId, agentId)`.  `preferred` is the value of
`getPreferredSessionKeyFormat()` (a configuration lookup, passed in as an
environment input); `if (!preferred) return` makes the empty string behave
as unset. -/
def resolvePreferredSessionKeyCandidate (preferred : Option String) (cardId agentId : String) :
    Option SessionKeyCandidate :=
  match preferred with
  | none => none
  | some p =>
    if p = "" then none
    else if p = "agent_card" then some ⟨.agent_card, buildDelegationSessionKey cardId agentId⟩
    else if p = "agentid_card" then some ⟨.agentid_card, agentId ++ ":card:" ++ cardId⟩
    else if p = "legacy" then some ⟨.legacy, "agent:" ++ agentId ++ ":" ++ cardId⟩
    else some ⟨.custom, p⟩

/-- The de-duplication filter in `getSessionKeyFormats`: keep a candidate
only when its key has not been seen before (`seenKeys` accumulates the
keys kept so far). -/
def filterSeenKeys (seen : List String) : List SessionKeyCandidate → List SessionKeyCandidate
  | [] => []
  | c :: rest =>
    if c.key ∈ seen then filterSeenKeys seen rest
    else c :: filterSeenKeys (c.key :: seen) rest

/-- `OpenClawGateway.getSessionKeyFormats(cardId, agentId)`: the preferred
candidate (when resolvable) followed by the three fixed formats, filtered
to truthy keys (`Boolean(value?.key)`), then de-duplicated by key keeping
the first occurrence. -/
def getSessionKeyFormats (preferred : Option String) (cardId agentId : String) :
    List SessionKeyCandidate :=
  let formats := (resolvePreferredSessionKeyCandidate preferred cardId agentId).toList ++
    [⟨.agent_card, buildDelegationSessionKey cardId agentId⟩,
     ⟨.agentid_card, agentId ++ ":card:" ++ cardId⟩,
     ⟨.legacy, "agent:" ++ agentId ++ ":" ++ cardId⟩]
  filterSeenKeys [] (formats.filter (fun c => c.key ≠ ""))

/-- Outcome of one awaited gateway request: the promise resolved (with
`msg?.payload`, possibly `undefined`) or rejected with an error value. -/
inductive RequestOutcome where
  | resolved (payload : Option Json)
  | rejected (error : GErr)
deriving DecidableEq

/-- State left by the candidate loop in `spawnDelegation`: the local
variables `response`, `successfulFormat` and `lastError` at loop exit,
`aborted` holds the non-mismatch error rethrown out of the loop (if any),
and `attemptedKeys` lists the keys actually tried, in order. -/
structure SpawnLoopOut where
  response : Option Json
  successfulFormat : Option SessionKeyFormatLabel
  lastError : Option GErr
  aborted : Option GErr
  attemptedKeys : List String
deriving DecidableEq

/-- The `for (const sessionKeyCandidate of sessionKeyFormats)` loop of
`spawnDelegation`: each candidate's key is attempted via
`trySpawnWithFormat`; a success breaks out, a mismatch-classified
rejection records `lastError` and continues, any other rejection is
rethrown at once. -/
def spawnLoop (attempt : String → RequestOutcome) :
    List SessionKeyCandidate → Option GErr → List String → SpawnLoopOut
  | [], lastE, tried => ⟨none, none, lastE, none, tried⟩
  | c :: rest, lastE, tried =>
    match attempt c.key with
    | .resolved r => ⟨r, some c.label, lastE, none, tried ++ [c.key]⟩
    | .rejected e =>
      if isAgentMismatchError e then spawnLoop attempt rest (some e) (tried ++ [c.key])
      else ⟨none, none, some e, some e, tried ++ [c.key]⟩

/-- Arguments of `spawnDelegation`. -/
structure SpawnInput where
  delegationId : Int
  cardId : String
  agentId : String
  taskDescription : Option String
deriving DecidableEq

/-- Environment of one `spawnDelegation` call: whether an endpoint is
configured, the supported-method set, the configured preferred key format
(`getPreferredSessionKeyFormat()`), the gateway's response to
`trySpawnWithFormat` as a function of the session key attempted, and the
outcome of the optional `agent.wait` follow-up request. -/
structure SpawnEnv where
  endpointConfigured : Bool
  supportedMethods : List String
  preferred : Option String
  attempt : String → RequestOutcome
  agentWaitOutcome : RequestOutcome

/-- Modelled from the spec: `updateDelegationSession` (its defining module
is absent from the source snapshot; only this call site remains).  Per
spec §4.4 / §6 it persists the given run id, session key, session id and
format label on the delegation record; the model records the argument
tuple of each call. -/
structure DelegationSessionUpdate where
  delegationId : Int
  runId : Json
  sessionKey : Json
  sessionId : Option Json
  sessionKeyFormat : SessionKeyFormatLabel
deriving DecidableEq

/-- How `spawnDelegation` returns: the disabled-gateway result, a thrown
value (`thrownErr` rethrows a caught error value, `thrownNew` is
`throw new Error(message)`), or the `{ok: true, ...}` success record. -/
inductive SpawnResult where
  | disabledResult
  | thrownErr (e : GErr)
  | thrownNew (message : String)
  | okResult (sessionKey : Json) (sessionKeyFormat : SessionKeyFormatLabel)
      (runId : Json) (sessionId : Option Json)
deriving DecidableEq

/-- Observable output of one `spawnDelegation` call: the result, the
`updateDelegationSession` writes, the audit-event keys appended, and the
session keys attempted against the gateway, each in order. -/
structure SpawnOutput where
  result : SpawnResult
  sessionWrites : List DelegationSessionUpdate
  appendedEventKeys : List String
  attemptedKeys : List String
deriving DecidableEq

/-- `String(v)` as used inside template literals of error messages.  The
display of arrays/objects is approximated; it never feeds back into
control flow. -/
def jsDisplayString : Json → String
  | .str s => s
  | .null => "null"
  | .bool true => "true"
  | .bool false => "false"
  | .num n => toString n
  | .arr _ => "[object Array]"
  | .obj _ => "[object Object]"

/-- Truthy projection of a possibly-`undefined` value: `some v` exactly
when JS `if (x)` would take the branch. -/
def jsTruthyVal : Option Json → Option Json
  | some v => if v.truthy then some v else none
  | none => none

/-- The part of `spawnDelegation` after the candidate loop: rethrow an
aborted loop's error, enforce `!response || !successfulFormat` (throwing
`lastError` only when it is an `Error` instance, else a fresh generic
error), read the reply fields, persist them, optionally `agent.wait`,
and append the audit event. -/
def spawnFinish (env : SpawnEnv) (input : SpawnInput)
    (sessionKeyFormats : List SessionKeyCandidate) (loopOut : SpawnLoopOut) : SpawnOutput :=
      match loopOut.aborted with
      | some e => ⟨.thrownErr e, [], [], loopOut.attemptedKeys⟩
      | none =>
        -- `if (!response || !successfulFormat) throw lastError instanceof Error
        --    ? lastError : new Error('all session key formats failed')`
        let throwLast : SpawnOutput :=
          match loopOut.lastError with
          | some e =>
            if e.isErrorInstance then ⟨.thrownErr e, [], [], loopOut.attemptedKeys⟩
            else ⟨.thrownNew "all session key formats failed", [], [], loopOut.attemptedKeys⟩
          | none => ⟨.thrownNew "all session key formats failed", [], [], loopOut.attemptedKeys⟩
        match loopOut.response, loopOut.successfulFormat with
        | some r, some successfulFormat =>
          if r.truthy then
            let runId := jsOrElse (r.get2? "payload" "runId") (r.get? "runId")
            let responseSessionKey :=
              jsOrElse (jsOrElse (r.get? "sessionKey") (r.get2? "payload" "sessionKey"))
                (r.get2? "payload" "childSessionKey")
            let sessionKeyCandidate :=
              (sessionKeyFormats.find? (fun c => c.label = successfulFormat)).map (·.key)
            let finalSessionKey := jsOrElse responseSessionKey (sessionKeyCandidate.map Json.str)
            let sessionId := jsOrElse (r.get2? "payload" "sessionId") (r.get? "sessionId")
            match jsTruthyVal runId with
            | none =>
              ⟨.thrownNew ("agent did not return runId (agentId=" ++ input.agentId ++
                ", cardId=" ++ input.cardId ++ ", sessionKey=" ++
                (match jsOrElse finalSessionKey none with
                 | some v => jsDisplayString v
                 | none => "missing") ++ ")"), [], [], loopOut.attemptedKeys⟩
            | some runIdV =>
              match jsTruthyVal finalSessionKey with
              | none =>
                ⟨.thrownNew ("agent did not return sessionKey and no attempted key was available for format " ++
                  labelString successfulFormat), [], [], loopOut.attemptedKeys⟩
              | some finalSessionKeyV =>
                let write : DelegationSessionUpdate :=
                  ⟨input.delegationId, runIdV, finalSessionKeyV, sessionId, successfulFormat⟩
                if env.supportedMethods.contains "agent.wait" then
                  match env.agentWaitOutcome with
                  | .rejected e => ⟨.thrownErr e, [write], [], loopOut.attemptedKeys⟩
                  | .resolved _ =>
                    ⟨.okResult finalSessionKeyV successfulFormat runIdV sessionId, [write],
                      ["agent.started"], loopOut.attemptedKeys⟩
                else
                  ⟨.okResult finalSessionKeyV successfulFormat runIdV sessionId, [write],
                    ["agent.started"], loopOut.attemptedKeys⟩
          else throwLast
        | _, _ => throwLast

/-- `OpenClawGateway.spawnDelegation(input)`: the disabled-gateway
check, `ensureMethod('agent')`, the candidate loop, then
`spawnFinish`. -/
def spawnDelegation (env : SpawnEnv) (input : SpawnInput) : SpawnOutput :=
  if !env.endpointConfigured then
    ⟨.disabledResult, [], [], []⟩
  else
    match ensureMethod env.supportedMethods "agent" with
    | some emsg => ⟨.thrownNew emsg, [], [], []⟩
    | none =>
      let sessionKeyFormats := getSessionKeyFormats env.preferred input.cardId input.agentId
      spawnFinish env input sessionKeyFormats (spawnLoop env.attempt sessionKeyFormats none [])

/-! ## `resumeDelegation`. -/

/-- The delegation record (`src/types.ts` `CardDelegation`), restricted to
the fields the gateway client reads. -/
structure Delegation where
  id : Int
  cardId : String
  agentId : String
  runId : Option String
  sessionKey : Option String
  sessionId : Option String
  status : String
  externalStatus : Option String
deriving DecidableEq, Repr

/-- JS truthiness of an optional string field (`undefined` and `''` are
falsy). -/
def jsTruthyStrOpt : Option String → Bool
  | some s => s ≠ ""
  | none => false

/-- Environment of one `resumeDelegation` call: the supported-method set,
the result of `findDelegationById(delegationId)`, and the gateway
outcomes of the two possible requests. -/
structure ResumeEnv where
  supportedMethods : List String
  delegation : Option Delegation
  chatSendOutcome : RequestOutcome
  agentWaitOutcome : RequestOutcome

/-- How `resumeDelegation` returns: a generic thrown `Error`, the
distinct `UnsupportedGatewayError`, or the `{methodUsed, runId}` success
record. -/
inductive ResumeOutcome where
  | thrownNew (message : String)
  | unsupportedGateway (message : String)
  | resumed (methodUsed : String) (runId : Option String)
deriving DecidableEq

/-- Observable output of one `resumeDelegation` call: the outcome, the
gateway methods actually requested, and the
`attachDelegationSession(id, {status, externalStatus})` writes. -/
structure ResumeOut where
  outcome : ResumeOutcome
  requestedMethods : List String
  attachWrites : List (Int × String × String)
deriving DecidableEq

/-- `OpenClawGateway.resumeDelegation(delegationId, message)`. -/
def resumeDelegation (env : ResumeEnv) (delegationId : Int) : ResumeOut :=
  match env.delegation with
  | none => ⟨.thrownNew ("Delegation " ++ toString delegationId ++ " not found"), [], []⟩
  | some delegation =>
    if env.supportedMethods.contains "chat.send" then
      if jsTruthyStrOpt delegation.sessionKey = false then
        ⟨.thrownNew ("Delegation " ++ toString delegationId ++ " has no session key - cannot resume"),
          [], []⟩
      else
        match env.chatSendOutcome with
        | .resolved _ =>
          ⟨.resumed "chat.send" delegation.runId, ["chat.send"],
            [(delegationId, "in_progress", "resumed")]⟩
        | .rejected e =>
          if isSchemaCompatibilityError e then
            ⟨.unsupportedGateway ("resume is not supported by this gateway schema: " ++
              errorMessage e), ["chat.send"], []⟩
          else
            ⟨.thrownNew ("resume failed: " ++ errorMessage e), ["chat.send"], []⟩
    else if jsTruthyStrOpt delegation.runId && env.supportedMethods.contains "agent.wait" then
      match env.agentWaitOutcome with
      | .resolved _ =>
        ⟨.resumed "agent.wait" delegation.runId, ["agent.wait"],
          [(delegationId, "in_progress", "waiting")]⟩
      | .rejected e =>
        ⟨.thrownNew ("resume failed: " ++ errorMessage e), ["agent.wait"], []⟩
    else
      ⟨.unsupportedGateway "resume not supported by gateway", [], []⟩

/-! ## Transcripts (`getTranscript`, `normalizeTranscript`,
`extractTextContent`). -/

/-- One entry of the normalized transcript
(`{role, text, timestamp}`). -/
structure TranscriptEntry where
  role : Json
  text : String
  timestamp : Json
deriving DecidableEq

/-- The per-chunk extraction inside `extractTextContent` for array
content: a string chunk passes through, an object chunk contributes its
string `text` property (the second `type === 'text'` test is subsumed by
the first and can never fire), anything else contributes `''`. -/
def chunkText (chunk : Json) : String :=
  match chunk with
  | .str s => s
  | c =>
    match c.get? "text" with
    | some (.str t) => t
    | _ => ""

/-- The per-payload extraction inside `extractTextContent`: a string
`text` property, else a string `content` property, else `''`. -/
def payloadItemText (payload : Json) : String :=
  match payload.get? "text" with
  | some (.str s) => s
  | _ =>
    match payload.get? "content" with
    | some (.str s) => s
    | _ => ""

/-- The tail of `extractTextContent`: the `payloads` fallback, the
`output_text`/`text` properties, and the `safeStringify` last resort
(cycles cannot occur in an inductive value, so `safeStringify` is plain
`JSON.stringify`). -/
def extractTail (message : Json) : String :=
  let payloads :=
    match jsTruthyVal (message.get? "payloads") with
    | some v => some v
    | none => message.get2? "result" "payloads"
  let fromPayloads : Option String :=
    match payloads with
    | some (.arr ps) =>
      let payloadText := String.intercalate "\n"
        (((ps.toList.map payloadItemText).map String.trim).filter (fun s => s ≠ ""))
      if payloadText ≠ "" then some payloadText else none
    | _ => none
  match fromPayloads with
  | some out => out
  | none =>
    match message.get? "output_text" with
    | some (.str s) => s
    | _ =>
      match message.get? "text" with
      | some (.str s) => s
      | _ =>
        let serialized := Json.stringify message
        if serialized = "\x7b\x7d" then "" else serialized

/-- `OpenClawGateway.extractTextContent(message)`. -/
def extractTextContent (message : Json) : String :=
  match message with
  | .null => ""
  | _ =>
    let content : Option Json :=
      match message with
      | .obj fs => fs.lookup "content"
      | .arr _ => none
      | v => some v
    match content with
    | some (.str s) => s
    | _ =>
      let fromChunks : Option String :=
        match content with
        | some (.arr chunks) =>
          let parts := ((chunks.toList.map chunkText).map String.trim).filter (fun s => s ≠ "")
          if parts.length ≠ 0 then some (String.intercalate "\n" parts) else none
        | _ => none
      match fromChunks with
      | some out => out
      | none =>
        match content.bind (·.get? "text") with
        | some (.str t) => t
        | _ => extractTail message

/-- The message-array selection at the head of `normalizeTranscript`:
the history itself when it is an array, else its `messages`, `items` or
`payload.messages` array, else `[]`. -/
def transcriptMessages (history : Option Json) : List Json :=
  match history with
  | some (.arr xs) => xs.toList
  | h =>
    match h.bind (·.get? "messages") with
    | some (.arr xs) => xs.toList
    | _ =>
      match h.bind (·.get? "items") with
      | some (.arr xs) => xs.toList
      | _ =>
        match h.bind (·.get2? "payload" "messages") with
        | some (.arr xs) => xs.toList
        | _ => []

/-- The per-message mapping of `normalizeTranscript`. -/
def messageToTranscriptEntry (message : Json) : TranscriptEntry :=
  { role := (jsOrElse (message.get? "role") (some (.str "unknown"))).getD (.str "unknown")
    text := (extractTextContent message).take 4000
    timestamp := (jsOrElse (message.get? "timestamp") (some .null)).getD .null }

/-- `OpenClawGateway.normalizeTranscript(history)`. -/
def normalizeTranscript (history : Option Json) : List TranscriptEntry :=
  (transcriptMessages history).map messageToTranscriptEntry

/-- Observable output of one `getTranscript` call: the entries returned
and the gateway methods actually requested. -/
structure TranscriptOut where
  entries : List TranscriptEntry
  requestedMethods : List String
deriving DecidableEq

/-- `OpenClawGateway.getTranscript(sessionKey)`.  `requestOutcome` gives
the gateway's behaviour for each history request (resolution with a
payload, or any rejection: explicit error reply, timeout or
disconnection). -/
def getTranscript (supportedMethods : List String)
    (requestOutcome : String → RequestOutcome) (sessionKey : String) : TranscriptOut :=
  if supportedMethods.contains "chat.history" then
    match requestOutcome "chat.history" with
    | .resolved h => ⟨normalizeTranscript h, ["chat.history"]⟩
    | .rejected _ => ⟨[], ["chat.history"]⟩
  else if supportedMethods.contains "sessions.history" then
    match requestOutcome "sessions.history" with
    | .resolved h => ⟨normalizeTranscript h, ["sessions.history"]⟩
    | .rejected _ => ⟨[], ["sessions.history"]⟩
  else
    ⟨[], []⟩

/-! ## Delegation lookup and the inbound event dispatch
(`findDelegationForMessage`, `extractCardIdFromSessionKey`, and the tail
of `handleMessage`). -/

/-- The store the collaborator functions query: delegation records in
creation order, and the cards. -/
structure StoreState where
  delegations : List Delegation
  cards : List Card
deriving DecidableEq, Repr

/-- `store.findDelegationByRunId(runId)`:
`SELECT * FROM card_delegations WHERE run_id = $1`. -/
def findDelegationByRunId (st : StoreState) (runId : String) : Option Delegation :=
  st.delegations.find? (fun d => d.runId = some runId)

/-- `store.findDelegationBySessionKey(sessionKey)`:
`SELECT * FROM card_delegations WHERE session_key = $1`. -/
def findDelegationBySessionKey (st : StoreState) (sessionKey : String) : Option Delegation :=
  st.delegations.find? (fun d => d.sessionKey = some sessionKey)

/-- Modelled from the spec: `findLatestDelegationForCard` (its defining
module is absent from the source snapshot; only call sites remain).  Spec
§4.7/§6 describe it as "most recent delegation for that work item": the
last record for the card, in creation order. -/
def findLatestDelegationForCard (st : StoreState) (cardId : String) : Option Delegation :=
  (st.delegations.filter (fun d => d.cardId = cardId)).getLast?

/-- `store.getCard(id)`. -/
def getCard (st : StoreState) (cardId : String) : Option Card :=
  st.cards.find? (fun c => c.id = cardId)

/-- Character class `[0-9a-fA-F-]` of the session-key regexes. -/
def isHexDashChar (c : Char) : Bool :=
  c.isDigit || (decide ('a' ≤ c) && decide (c ≤ 'f')) ||
    (decide ('A' ≤ c) && decide (c ≤ 'F')) || c == '-'

/-- One attempt of `/(?:^|:)card:([0-9a-fA-F-]{36})(?:$|:)/` with the
literal `card:` starting at character index `j`: the anchor before it,
the literal, exactly 36 class characters, and the end-or-colon anchor
after them.  Returns the captured group. -/
def tryCardMatchAt (cs : List Char) (j : Nat) : Option (List Char) :=
  let anchorOk : Bool := if j = 0 then true else cs.get? (j - 1) == some ':'
  let uuid := (cs.drop (j + 5)).take 36
  if anchorOk
      && decide ((cs.drop j).take 5 = "card:".data)
      && decide (uuid.length = 36)
      && uuid.all isHexDashChar
      && (decide (cs.length = j + 41) || cs.get? (j + 41) == some ':')
  then some uuid else none

/-- `sessionKey.match(/(?:^|:)card:([0-9a-fA-F-]{36})(?:$|:)/)`: the
leftmost match wins. -/
def explicitCardMatch (cs : List Char) : Option (List Char) :=
  (List.range cs.length).findSome? (tryCardMatchAt cs)

/-- `sessionKey.match(/([0-9a-fA-F-]{36})$/)`: the last 36 characters,
when they all belong to the class. -/
def trailingUuidMatch (cs : List Char) : Option (List Char) :=
  if decide (36 ≤ cs.length) && (cs.drop (cs.length - 36)).all isHexDashChar then
    some (cs.drop (cs.length - 36))
  else none

/-- `OpenClawGateway.extractCardIdFromSessionKey(sessionKey)`. -/
def extractCardIdFromSessionKey (sessionKey : String) : Option String :=
  match explicitCardMatch sessionKey.data with
  | some uuid => some (String.mk uuid)
  | none =>
    match trailingUuidMatch sessionKey.data with
    | some uuid => some (String.mk uuid)
    | none => none

/-- `OpenClawGateway.findDelegationForMessage({runId, sessionKey})`.
Identifiers on the wire are modelled as strings (`none` covers absent,
null, empty — all falsy — and non-string values, which could never match
a stored text id). -/
def findDelegationForMessage (st : StoreState) (runId sessionKey : Option String) :
    Option Delegation :=
  let byRunId :=
    if jsTruthyStrOpt runId then findDelegationByRunId st (runId.getD "") else none
  match byRunId with
  | some d => some d
  | none =>
    if jsTruthyStrOpt sessionKey then
      let sk := sessionKey.getD ""
      match findDelegationBySessionKey st sk with
      | some d => some d
      | none =>
        match extractCardIdFromSessionKey sk with
        | some cardId => findLatestDelegationForCard st cardId
        | none => none
    else none

/-- One `attachDelegationSession(delegation.id, {...})` call made by the
inbound dispatch. -/
structure AttachSessionWrite where
  delegationId : Int
  runId : Option String
  status : Option String
  externalStatus : Option Json
  sessionId : Option Json
  sessionKey : Option String
deriving DecidableEq

/-- One `appendEvent({cardId, ..., eventKey, ...})` call made by the
inbound dispatch. -/
structure AuditAppend where
  cardId : String
  eventKey : String
deriving DecidableEq

/-- Observable output of dispatching one inbound push frame: the
delegation-session writes, the card moves actually applied by the stage
guard, the audit appends, and whether the frame was logged as orphaned. -/
structure DispatchOut where
  attachWrites : List AttachSessionWrite
  cardMoves : List (String × Stage)
  auditAppends : List AuditAppend
  orphaned : Bool
deriving DecidableEq

/-- A string-valued identifier field (non-strings are treated as absent;
see `findDelegationForMessage`). -/
def jsonAsString : Option Json → Option String
  | some (.str s) => some s
  | _ => none

/-- `const messageType = msg?.type === 'event' ? msg?.event : msg?.type`
in `handleMessage`. -/
def inboundMessageType (msg : Json) : Option Json :=
  if msg.get? "type" = some (.str "event") then msg.get? "event" else msg.get? "type"

/-- `const runId = msg?.runId ?? msg?.payload?.runId ??
msg?.payload?.data?.runId` in `handleMessage`. -/
def inboundRunId (msg : Json) : Option Json :=
  jsOrElse (jsOrElse (msg.get? "runId") (msg.get2? "payload" "runId"))
    (msg.get3? "payload" "data" "runId")

/-- `const sessionKey = msg?.sessionKey ?? msg?.payload?.sessionKey ??
msg?.payload?.childSessionKey ?? msg?.payload?.data?.sessionKey` in
`handleMessage`. -/
def inboundSessionKey (msg : Json) : Option Json :=
  jsOrElse (jsOrElse (jsOrElse (msg.get? "sessionKey")
    (msg.get2? "payload" "sessionKey")) (msg.get2? "payload" "childSessionKey"))
    (msg.get3? "payload" "data" "sessionKey")

/-- The tail of `OpenClawGateway.handleMessage(msg)` for frames not
consumed by the correlator or the handshake branches: extract the run id
and session key, normalize the event, resolve the delegation and perform
the dispatch writes. -/
def handleInboundEvent (st : StoreState) (msg : Json) : DispatchOut :=
  let messageType := inboundMessageType msg
  let runId := inboundRunId msg
  let sessionKey := inboundSessionKey msg
  match normalizeGatewayEvent messageType msg with
  | none => ⟨[], [], [], false⟩
  | some normalizedEvent =>
    match findDelegationForMessage st (jsonAsString runId) (jsonAsString sessionKey) with
    | none => ⟨[], [], [], true⟩
    | some delegation =>
      let attach : AttachSessionWrite :=
        { delegationId := delegation.id
          runId := jsonAsString runId
          status := normalizedEvent.delegationStatus
          externalStatus := normalizedEvent.externalStatus
          sessionId := msg.get2? "payload" "sessionId"
          sessionKey := jsonAsString sessionKey }
      let moves :=
        match normalizedEvent.stageUpdate with
        | none => []
        | some stageUpdate =>
          match maybeMoveCardStage (getCard st delegation.cardId) stageUpdate with
          | some target => [(delegation.cardId, target)]
          | none => []
      ⟨[attach], moves, [⟨delegation.cardId, normalizedEvent.eventKey⟩], false⟩

/-! ## Client lifecycle around `stop()` (stop, close handler, reconnect
timer). -/

/-- The lifecycle-relevant client state. -/
structure ClientState where
  endpointConfigured : Bool
  socketExists : Bool
  isConnected : Bool
  reconnectTimerSet : Bool
  reconnectDelayMs : Nat
  pendingRequests : List String
  connectCount : Nat
  rejectedCalls : List (String × String)
deriving DecidableEq, Repr

/-- The lifecycle events relevant to `stop()`: the explicit `stop()`
call, the socket's asynchronous `close` event, the reconnect timer
firing, and a completed handshake. -/
inductive ClientEvent where
  | stopCall
  | socketClosed
  | reconnectTimerFired
  | helloOk
deriving DecidableEq, Repr

/-- `scheduleReconnect()` on the lifecycle state: bail out without an
endpoint, otherwise (re)arm the timer and advance the delay. -/
def scheduleReconnectClient (s : ClientState) : ClientState :=
  if !s.endpointConfigured then s
  else { s with reconnectTimerSet := true
                reconnectDelayMs := min (s.reconnectDelayMs * 2) reconnectDelayCeiling }

/-- One lifecycle transition.  `stop()` clears the reconnect timer and
asks the socket to close — the `close` event is delivered asynchronously
as a separate `socketClosed` transition, and the source records no flag
that the client was stopped.  The `close` handler rejects all pending
calls and calls `scheduleReconnect()`.  A set timer fires exactly once,
invoking `connect()`. -/
def clientStep (s : ClientState) : ClientEvent → ClientState
  | .stopCall => { s with reconnectTimerSet := false }
  | .socketClosed =>
    let rejected := rejectPendingRequests s.pendingRequests connectionLostError
    scheduleReconnectClient
      { s with isConnected := false
               socketExists := false
               pendingRequests := rejected.1
               rejectedCalls := s.rejectedCalls ++ rejected.2 }
  | .reconnectTimerFired =>
    if s.reconnectTimerSet then
      { s with reconnectTimerSet := false
               socketExists := true
               connectCount := s.connectCount + 1 }
    else s
  | .helloOk => { s with isConnected := true, reconnectDelayMs := reconnectDelayFloor }

/-- The lifecycle state after a sequence of events. -/
def runClient (s : ClientState) (evs : List ClientEvent) : ClientState :=
  evs.foldl clientStep s

/-- The error of a rejected request outcome, used to name the last
mismatch error of an exhausted negotiation. -/
def rejectedError : RequestOutcome → Option GErr
  | .rejected e => some e
  | .resolved _ => none

/-! ## Concrete fixtures used to evaluate the code on specific inputs. -/

/-- A gateway-error reply carrying a mismatch message: a plain parsed
object (as produced by `pending.reject(msg.error ?? msg)`), not an
`Error` instance. -/
def plainMismatchError : GErr :=
  ⟨.obj (.cons "message" (.str "agent mismatch") .nil), false, "[object Object]"⟩

/-- A spawn environment whose gateway rejects every session-key format
with `plainMismatchError`. -/
def allMismatchSpawnEnv : SpawnEnv :=
  { endpointConfigured := true
    supportedMethods := ["agent"]
    preferred := none
    attempt := fun _ => .rejected plainMismatchError
    agentWaitOutcome := .resolved none }

/-- A successful spawn reply that carries its own session key
(`remote-key`), different from every attempted key. -/
def remoteKeyedResponse : Json :=
  .obj (.cons "runId" (.str "r-1") (.cons "sessionKey" (.str "remote-key") .nil))

/-- A spawn environment whose gateway accepts the first attempted format
and answers with `remoteKeyedResponse`. -/
def remoteKeyedSpawnEnv : SpawnEnv :=
  { endpointConfigured := true
    supportedMethods := ["agent"]
    preferred := none
    attempt := fun _ => .resolved (some remoteKeyedResponse)
    agentWaitOutcome := .resolved none }

/-- The spawn input used with the fixtures above. -/
def spawnFixtureInput : SpawnInput :=
  { delegationId := 1, cardId := "c", agentId := "a", taskDescription := none }

/-- A connected client with a configured endpoint and one pending call,
about to be stopped. -/
def connectedClientFixture : ClientState :=
  { endpointConfigured := true
    socketExists := true
    isConnected := true
    reconnectTimerSet := false
    reconnectDelayMs := 1000
    pendingRequests := ["req-1"]
    connectCount := 0
    rejectedCalls := [] }

/-- A well-formed card id (36 characters of the `[0-9a-fA-F-]` class). -/
def orphanCardId : String := "00000000-0000-4000-8000-000000000000"

/-- A freshly created delegation: no run id, no session key. -/
def runlessDelegation : Delegation :=
  { id := 1, cardId := orphanCardId, agentId := "a1", runId := none, sessionKey := none
    sessionId := none, status := "pending", externalStatus := none }

/-- A store holding only `runlessDelegation` and its card. -/
def runlessStore : StoreState :=
  { delegations := [runlessDelegation], cards := [⟨orphanCardId, .in_progress⟩] }

/-- A `session.completed` push frame addressed by session key only (no
run id), whose key embeds `orphanCardId`. -/
def sessionCompletedPush : Json :=
  .obj (.cons "type" (.str "event")
    (.cons "event" (.str "session.completed")
      (.cons "sessionKey" (.str ("agent:a1:card:" ++ orphanCardId)) .nil)))

/-! # Theorems -/

/-- The stage-suggestion guard depends on the card only through its
stage. -/
theorem applyStageSuggestion_only_stage (c : Card) (sugg : Option Stage) :
    applyStageSuggestion (some c) sugg = applyStageSuggestion (some ⟨"", c.stage⟩) sugg := by
  cases sugg <;> rfl

/-- C2: for every card and suggested stage, the stage transition guard
mutates the card's stage exactly when the pair (current stage, suggested
stage) is in the table `backlog→{in_progress}`,
`in_progress→{review, blocked}`, `review→{blocked}`,
`blocked→{in_progress}`, `done→{}`; an absent suggestion, a suggestion
equal to the current stage, or an unlisted target performs no mutation,
and a card in stage `done` is never moved. -/
theorem stage_guard_matches_table (c : Card) (sugg : Option Stage) :
    (∀ s : Stage, applyStageSuggestion (some c) sugg = some s ↔
      sugg = some s ∧ (c.stage, s) ∈ specLegalTransitions) ∧
    (c.stage = Stage.done → applyStageSuggestion (some c) sugg = none) := by
  have h := applyStageSuggestion_only_stage c sugg
  have hd : ∀ (st : Stage) (sg : Option Stage),
      (∀ s : Stage, applyStageSuggestion (some ⟨"", st⟩) sg = some s ↔
        sg = some s ∧ (st, s) ∈ specLegalTransitions) ∧
      (st = Stage.done → applyStageSuggestion (some ⟨"", st⟩) sg = none) := by decide
  refine ⟨fun s => ?_, fun hdone => ?_⟩
  · rw [h]; exact (hd c.stage sugg).1 s
  · rw [h]; exact (hd c.stage sugg).2 hdone

/-- Witness for C2: a `done` card is not moved by a `review`
suggestion. -/
theorem stage_guard_matches_table_witness :
    applyStageSuggestion (some ⟨"card-1", Stage.done⟩) (some Stage.review) = none :=
  (stage_guard_matches_table ⟨"card-1", Stage.done⟩ (some Stage.review)).2 rfl

/-- C6: a call issued while the handshake gate is down fails immediately
with the "not connected" error naming the method; no frame is sent, the
call is not queued, and the state (in particular the pending-request
map) is unchanged. -/
theorem request_not_connected (st : GatewayState) (method : String) (payload : JsonFields)
    (freshId : String) (h : st.isConnected = false) :
    request st method payload freshId =
      ⟨CallStart.notConnectedErr ("openclaw gateway is not connected; cannot call " ++ method),
        [], st⟩ ∧
    (request st method payload freshId).framesSent = [] ∧
    (request st method payload freshId).finalState.pendingRequests = st.pendingRequests := by
  have hr : request st method payload freshId =
      ⟨CallStart.notConnectedErr ("openclaw gateway is not connected; cannot call " ++ method),
        [], st⟩ := by
    simp [request, h]
  exact ⟨hr, by rw [hr], by rw [hr]⟩

/-- Witness for C6: a concrete disconnected state. -/
theorem request_not_connected_witness :
    request ⟨false, true, ["p-0"], ["agent"]⟩ "agent" JsonFields.nil "id-1" =
      ⟨CallStart.notConnectedErr ("openclaw gateway is not connected; cannot call " ++ "agent"),
        [], ⟨false, true, ["p-0"], ["agent"]⟩⟩ ∧
    (request ⟨false, true, ["p-0"], ["agent"]⟩ "agent" JsonFields.nil "id-1").framesSent = [] ∧
    (request ⟨false, true, ["p-0"], ["agent"]⟩ "agent" JsonFields.nil
      "id-1").finalState.pendingRequests = ["p-0"] :=
  request_not_connected ⟨false, true, ["p-0"], ["agent"]⟩ "agent" JsonFields.nil "id-1" rfl

/-- C7: a method name not advertised by the last handshake is refused
before any frame goes out: `ensureMethod` yields the "does not advertise"
error, `runAgentTask` and `spawnDelegation` (which invoke `agent`) throw
it with no frame sent, no attempt made and no write performed,
`resumeDelegation` throws the distinct unsupported error when neither of
its methods is advertised, and `getTranscript` issues no request when
neither history method is advertised. -/
theorem unsupported_method_no_frame :
    (∀ (supported : List String) (m : String), m ∉ supported →
      ensureMethod supported m =
        some ("Gateway does not advertise method " ++ m ++ ". Known methods: " ++
          jsonStringifyStrings supported)) ∧
    (∀ (st : GatewayState) (p : AgentTaskParams) (freshId : String),
      "agent" ∉ st.supportedMethods →
      ∃ emsg, runAgentTask st p freshId = ⟨CallStart.unsupportedErr emsg, [], st⟩) ∧
    (∀ (env : SpawnEnv) (input : SpawnInput),
      env.endpointConfigured = true → "agent" ∉ env.supportedMethods →
      ∃ emsg, spawnDelegation env input = ⟨SpawnResult.thrownNew emsg, [], [], []⟩) ∧
    (∀ (env : ResumeEnv) (delegationId : Int) (d : Delegation), env.delegation = some d →
      "chat.send" ∉ env.supportedMethods →
      "agent.wait" ∉ env.supportedMethods →
      resumeDelegation env delegationId =
        ⟨ResumeOutcome.unsupportedGateway "resume not supported by gateway", [], []⟩) ∧
    (∀ (supported : List String) (out : String → RequestOutcome) (sk : String),
      "chat.history" ∉ supported → "sessions.history" ∉ supported →
      getTranscript supported out sk = ⟨[], []⟩) := by
  refine ⟨?_, ?_, ?_, ?_, ?_⟩
  · intro supported m h
    simp [ensureMethod, h]
  · intro st p freshId h
    refine ⟨"Gateway does not advertise method agent. Known methods: " ++
      jsonStringifyStrings st.supportedMethods, ?_⟩
    simp [runAgentTask, ensureMethod, h]
  · intro env input hep h
    refine ⟨"Gateway does not advertise method agent. Known methods: " ++
      jsonStringifyStrings env.supportedMethods, ?_⟩
    simp [spawnDelegation, ensureMethod, hep, h]
  · intro env delegationId d hdel h1 h2
    simp [resumeDelegation, hdel, h1, h2]
  · intro supported out sk h1 h2
    simp [getTranscript, h1, h2]

/-- Witness for C7: `chat.send` is not advertised, so `getTranscript`
returns empty without requesting, and `ensureMethod` refuses `agent`. -/
theorem unsupported_method_no_frame_witness :
    getTranscript ["agent"] (fun _ => RequestOutcome.resolved none) "k-1" = ⟨[], []⟩ ∧
    ensureMethod [] "agent" =
      some ("Gateway does not advertise method " ++ "agent" ++ ". Known methods: " ++
        jsonStringifyStrings []) :=
  ⟨unsupported_method_no_frame.2.2.2.2 ["agent"] (fun _ => RequestOutcome.resolved none) "k-1"
      (by decide) (by decide),
    unsupported_method_no_frame.1 [] "agent" (by decide)⟩

/-- C10: `getTranscript` is total and never propagates an error to the
caller (in this embedding it returns a plain list: every branch of the
source either returns `normalizeTranscript` of a resolved payload or
catches and returns `[]`).  If neither history method is advertised it
returns the empty list, and a rejected request (error reply, timeout,
disconnection) also yields the empty list. -/
theorem transcript_total (supported : List String) (out : String → RequestOutcome) (sk : String) :
    ("chat.history" ∉ supported → "sessions.history" ∉ supported →
      (getTranscript supported out sk).entries = []) ∧
    (∀ e, "chat.history" ∈ supported → out "chat.history" = .rejected e →
      (getTranscript supported out sk).entries = []) ∧
    (∀ e, "chat.history" ∉ supported → "sessions.history" ∈ supported →
      out "sessions.history" = .rejected e → (getTranscript supported out sk).entries = []) ∧
    (∀ h, "chat.history" ∈ supported → out "chat.history" = .resolved h →
      (getTranscript supported out sk).entries = normalizeTranscript h) ∧
    (∀ h, "chat.history" ∉ supported → "sessions.history" ∈ supported →
      out "sessions.history" = .resolved h →
      (getTranscript supported out sk).entries = normalizeTranscript h) := by
  refine ⟨?_, ?_, ?_, ?_, ?_⟩
  · intro h1 h2; simp [getTranscript, h1, h2]
  · intro e h1 h2; simp [getTranscript, h1, h2]
  · intro e h1 h2 h3; simp [getTranscript, h1, h2, h3]
  · intro h h1 h2; simp [getTranscript, h1, h2]
  · intro h h1 h2 h3; simp [getTranscript, h1, h2, h3]

/-- Witness for C10: a gateway advertising `chat.history` that rejects
the request still yields the empty transcript. -/
theorem transcript_total_witness :
    (getTranscript ["chat.history"]
      (fun _ => RequestOutcome.rejected plainMismatchError) "k-1").entries = [] :=
  (transcript_total ["chat.history"] (fun _ => RequestOutcome.rejected plainMismatchError)
    "k-1").2.1 plainMismatchError (by decide) rfl

/-- C3: the event normalizer is a pure function of
`(messageType, rawMessage)` — in this embedding it is literally a
function of those two arguments, so repeated application agrees — and it
dispatches in the fixed order error indicators, lifecycle-start,
lifecycle-end, progress/update, session-completed, approval-required
with first match winning, producing for each case exactly the listed
event key, stage suggestion and delegation status; an input matching no
case yields no event. -/
theorem normalize_event_dispatch_table (t : Option Json) (m : Json) :
    (normalizeGatewayEvent t m = normalizeGatewayEvent t m) ∧
    (errorIndicated t m →
      ∃ ev, normalizeGatewayEvent t m = some ev ∧ ev.eventKey = "agent.error" ∧
        ev.stageUpdate = some Stage.blocked ∧ ev.delegationStatus = some "error") ∧
    (¬ errorIndicated t m → lifecycleStart m →
      ∃ ev, normalizeGatewayEvent t m = some ev ∧ ev.eventKey = "agent.started" ∧
        ev.stageUpdate = some Stage.in_progress ∧ ev.delegationStatus = some "in_progress") ∧
    (¬ errorIndicated t m → ¬ lifecycleStart m → lifecycleEnd m →
      ∃ ev, normalizeGatewayEvent t m = some ev ∧ ev.eventKey = "agent.completed" ∧
        ev.stageUpdate = some Stage.review ∧ ev.delegationStatus = some "completed") ∧
    (¬ errorIndicated t m → ¬ lifecycleStart m → ¬ lifecycleEnd m →
      t = some (.str "session.updated") →
      ∃ ev, normalizeGatewayEvent t m = some ev ∧ ev.eventKey = "agent.progress" ∧
        ev.stageUpdate = none ∧ ev.delegationStatus = some "in_progress") ∧
    (¬ errorIndicated t m → ¬ lifecycleStart m → ¬ lifecycleEnd m →
      t ≠ some (.str "session.updated") → t = some (.str "session.completed") →
      ∃ ev, normalizeGatewayEvent t m = some ev ∧ ev.eventKey = "agent.completed" ∧
        ev.stageUpdate = some Stage.review ∧ ev.delegationStatus = some "completed") ∧
    (¬ errorIndicated t m → ¬ lifecycleStart m → ¬ lifecycleEnd m →
      t ≠ some (.str "session.updated") → t ≠ some (.str "session.completed") →
      approvalRequired t →
      ∃ ev, normalizeGatewayEvent t m = some ev ∧ ev.eventKey = "approval.requested" ∧
        ev.stageUpdate = some Stage.review ∧ ev.delegationStatus = some "review") ∧
    (¬ errorIndicated t m → ¬ lifecycleStart m → ¬ lifecycleEnd m →
      t ≠ some (.str "session.updated") → t ≠ some (.str "session.completed") →
      ¬ approvalRequired t →
      normalizeGatewayEvent t m = none) := by
  refine ⟨rfl, ?_, ?_, ?_, ?_, ?_, ?_, ?_⟩
  · intro h1
    simp only [normalizeGatewayEvent]
    rw [if_pos h1]
    exact ⟨_, rfl, rfl, rfl, rfl⟩
  · intro h1 h2
    simp only [normalizeGatewayEvent]
    rw [if_neg h1, if_pos h2]
    exact ⟨_, rfl, rfl, rfl, rfl⟩
  · intro h1 h2 h3
    simp only [normalizeGatewayEvent]
    rw [if_neg h1, if_neg h2, if_pos h3]
    exact ⟨_, rfl, rfl, rfl, rfl⟩
  · intro h1 h2 h3 h4
    simp only [normalizeGatewayEvent]
    rw [if_neg h1, if_neg h2, if_neg h3, if_pos h4]
    exact ⟨_, rfl, rfl, rfl, rfl⟩
  · intro h1 h2 h3 h4 h5
    simp only [normalizeGatewayEvent]
    rw [if_neg h1, if_neg h2, if_neg h3, if_neg h4, if_pos h5]
    exact ⟨_, rfl, rfl, rfl, rfl⟩
  · intro h1 h2 h3 h4 h5 h6
    simp only [normalizeGatewayEvent]
    rw [if_neg h1, if_neg h2, if_neg h3, if_neg h4, if_neg h5, if_pos h6]
    exact ⟨_, rfl, rfl, rfl, rfl⟩
  · intro h1 h2 h3 h4 h5 h6
    simp only [normalizeGatewayEvent]
    rw [if_neg h1, if_neg h2, if_neg h3, if_neg h4, if_neg h5, if_neg h6]

/-- Witness for C3: a `session.error` frame normalizes to the error
event. -/
theorem normalize_event_dispatch_table_witness :
    ∃ ev, normalizeGatewayEvent (some (.str "session.error")) (.obj .nil) = some ev ∧
      ev.eventKey = "agent.error" ∧ ev.stageUpdate = some Stage.blocked ∧
      ev.delegationStatus = some "error" :=
  (normalize_event_dispatch_table (some (.str "session.error")) (.obj .nil)).2.1
    (Or.inr (Or.inl rfl))

/-- Capping before doubling agrees with doubling before capping. -/
theorem min_mul_pow_absorb (a c k : Nat) : min (min a c * 2 ^ k) c = min (a * 2 ^ k) c := by
  rcases le_total a c with h | h
  · rw [min_eq_left h]
  · have hpow : 1 ≤ 2 ^ k := Nat.one_le_pow k 2 (by norm_num)
    have hc : c ≤ c * 2 ^ k := by
      calc c = c * 1 := (mul_one c).symm
        _ ≤ c * 2 ^ k := Nat.mul_le_mul_left c hpow
    have ha : c ≤ a * 2 ^ k := le_trans hc (Nat.mul_le_mul_right _ h)
    rw [min_eq_right h, min_eq_right hc, min_eq_right ha]

/-- Folding the backoff step over an event suffix. -/
theorem runBackoff_append (evs l : List ConnEvent) :
    runBackoff (evs ++ l) = l.foldl backoffStep (runBackoff evs) :=
  List.foldl_append _ _ _ _

/-- Closed form of `k` consecutive disconnects: each scheduled wait is
the delay doubled `i` times, capped at the ceiling. -/
theorem foldl_disconnects (k : Nat) : ∀ s : BackoffState,
    s.reconnectDelayMs ≤ reconnectDelayCeiling →
    (List.replicate k ConnEvent.disconnect).foldl backoffStep s =
      ⟨min (s.reconnectDelayMs * 2 ^ k) reconnectDelayCeiling,
        s.waits ++ (List.range k).map
          (fun i => min (s.reconnectDelayMs * 2 ^ i) reconnectDelayCeiling)⟩ := by
  induction k with
  | zero =>
    rintro ⟨d, w⟩ h
    simp [min_eq_left h]
  | succ k ih =>
    rintro ⟨d, w⟩ h
    rw [List.replicate_succ, List.foldl_cons]
    have hstep : backoffStep ⟨d, w⟩ ConnEvent.disconnect =
        ⟨min (d * 2) reconnectDelayCeiling, w ++ [d]⟩ := rfl
    rw [hstep, ih _ (min_le_right _ _)]
    have hdelay : ∀ i : Nat,
        min (min (d * 2) reconnectDelayCeiling * 2 ^ i) reconnectDelayCeiling =
          min (d * 2 ^ (i + 1)) reconnectDelayCeiling := by
      intro i
      rw [min_mul_pow_absorb]
      congr 1
      ring
    refine congrArg₂ BackoffState.mk (hdelay k) ?_
    rw [List.append_assoc, List.range_succ_eq_map, List.map_cons, List.map_map]
    have h0 : min (d * 2 ^ 0) reconnectDelayCeiling = d := by
      simpa using min_eq_left h
    rw [h0]
    refine congrArg (w ++ ·) (congrArg (d :: ·) ?_)
    apply List.map_congr_left
    intro i _
    exact hdelay i

/-- The backoff delay and every recorded wait stay within the floor and
the ceiling, from any in-range state. -/
theorem backoff_inv (evs : List ConnEvent) : ∀ s : BackoffState,
    reconnectDelayFloor ≤ s.reconnectDelayMs → s.reconnectDelayMs ≤ reconnectDelayCeiling →
    (∀ w ∈ s.waits, reconnectDelayFloor ≤ w ∧ w ≤ reconnectDelayCeiling) →
    reconnectDelayFloor ≤ (evs.foldl backoffStep s).reconnectDelayMs ∧
      (evs.foldl backoffStep s).reconnectDelayMs ≤ reconnectDelayCeiling ∧
      ∀ w ∈ (evs.foldl backoffStep s).waits,
        reconnectDelayFloor ≤ w ∧ w ≤ reconnectDelayCeiling := by
  induction evs with
  | nil => intro s h1 h2 h3; exact ⟨h1, h2, h3⟩
  | cons ev rest ih =>
    intro s h1 h2 h3
    rw [List.foldl_cons]
    cases ev with
    | disconnect =>
      apply ih
      · show reconnectDelayFloor ≤ min (s.reconnectDelayMs * 2) reconnectDelayCeiling
        have := h1
        unfold reconnectDelayFloor reconnectDelayCeiling at *
        omega
      · exact min_le_right _ _
      · intro w hw
        rcases List.mem_append.mp hw with hw | hw
        · exact h3 w hw
        · rcases List.mem_singleton.mp hw with rfl
          exact ⟨h1, h2⟩
    | helloOk =>
      apply ih
      · exact le_refl _
      · exact (show reconnectDelayFloor ≤ reconnectDelayCeiling by decide)
      · exact h3

/-- C4: the reconnect delay starts at the floor (1000 ms); the delay used
for each scheduled reconnect after a reset doubles per consecutive
disconnect, capped at the ceiling (30000 ms); the delay and every
scheduled wait never leave the floor–ceiling range; and a completed
handshake resets the delay to the floor. -/
theorem backoff_doubles_capped_resets :
    initialBackoff.reconnectDelayMs = reconnectDelayFloor ∧
    (∀ evs : List ConnEvent,
      reconnectDelayFloor ≤ (runBackoff evs).reconnectDelayMs ∧
      (runBackoff evs).reconnectDelayMs ≤ reconnectDelayCeiling) ∧
    (∀ evs : List ConnEvent, ∀ w ∈ (runBackoff evs).waits,
      reconnectDelayFloor ≤ w ∧ w ≤ reconnectDelayCeiling) ∧
    (∀ evs : List ConnEvent,
      (runBackoff (evs ++ [ConnEvent.helloOk])).reconnectDelayMs = reconnectDelayFloor) ∧
    (∀ (evs : List ConnEvent) (k : Nat),
      (runBackoff (evs ++ ConnEvent.helloOk :: List.replicate k ConnEvent.disconnect)).waits =
        (runBackoff evs).waits ++ (List.range k).map
          (fun i => min (reconnectDelayFloor * 2 ^ i) reconnectDelayCeiling)) ∧
    (∀ k : Nat, (runBackoff (List.replicate k ConnEvent.disconnect)).waits =
        (List.range k).map (fun i => min (reconnectDelayFloor * 2 ^ i) reconnectDelayCeiling)) := by
  have hinv : ∀ evs : List ConnEvent,
      reconnectDelayFloor ≤ (runBackoff evs).reconnectDelayMs ∧
      (runBackoff evs).reconnectDelayMs ≤ reconnectDelayCeiling ∧
      ∀ w ∈ (runBackoff evs).waits, reconnectDelayFloor ≤ w ∧ w ≤ reconnectDelayCeiling :=
    fun evs => backoff_inv evs initialBackoff (le_refl _) (by decide) (by simp [initialBackoff])
  refine ⟨rfl, fun evs => ⟨(hinv evs).1, (hinv evs).2.1⟩, fun evs => (hinv evs).2.2, ?_, ?_, ?_⟩
  · intro evs
    rw [runBackoff_append]
    rfl
  · intro evs k
    have hmid : runBackoff (evs ++ ConnEvent.helloOk :: List.replicate k ConnEvent.disconnect) =
        (List.replicate k ConnEvent.disconnect).foldl backoffStep
          (helloOkBackoff (runBackoff evs)) := by
      rw [runBackoff_append, List.foldl_cons]
      rfl
    rw [hmid, foldl_disconnects k (helloOkBackoff (runBackoff evs))
      (show reconnectDelayFloor ≤ reconnectDelayCeiling by decide)]
    simp [helloOkBackoff]
  · intro k
    show ((List.replicate k ConnEvent.disconnect).foldl backoffStep initialBackoff).waits = _
    rw [foldl_disconnects k initialBackoff (by decide)]
    simp [initialBackoff]

/-- Witness for C4: after a handshake and three disconnects the recorded
waits are 1000, 2000, 4000, and every recorded wait is within range. -/
theorem backoff_doubles_capped_resets_witness :
    (runBackoff ([ConnEvent.disconnect] ++
      ConnEvent.helloOk :: List.replicate 3 ConnEvent.disconnect)).waits =
      (runBackoff [ConnEvent.disconnect]).waits ++ [1000, 2000, 4000] ∧
    (reconnectDelayFloor ≤ 1000 ∧ 1000 ≤ reconnectDelayCeiling) := by
  constructor
  · rw [backoff_doubles_capped_resets.2.2.2.2.1 [ConnEvent.disconnect] 3]
    rfl
  · exact backoff_doubles_capped_resets.2.2.1 [ConnEvent.disconnect] 1000 (by decide)

/-- Closed form of the rejection loop's fold: the surviving map keeps
exactly the keys not iterated over, and one rejection is emitted per
iterated entry, in order. -/
theorem rejectPending_foldl (e : String) (l : List String) :
    ∀ (acc1 : List String) (acc2 : List (String × String)),
    l.foldl (fun acc requestId =>
        (acc.1.filter (fun k => k ≠ requestId), acc.2 ++ [(requestId, e)])) (acc1, acc2) =
      (acc1.filter (fun k => decide (k ∉ l)), acc2 ++ l.map (fun i => (i, e))) := by
  induction l with
  | nil =>
    intro acc1 acc2
    simp
  | cons x xs ih =>
    intro acc1 acc2
    rw [List.foldl_cons, ih]
    refine congrArg₂ Prod.mk ?_ ?_
    · rw [List.filter_filter]
      apply List.filter_congr
      intro a _
      by_cases h1 : a ∈ xs <;> by_cases h2 : a = x <;> simp [h1, h2, List.mem_cons]
    · simp

/-- C5: at the moment the connection closes, the close handler rejects
every pending call exactly once with the connection-lost error, in map
order, and leaves the pending-request map empty. -/
theorem disconnect_rejects_all_pending (pending : List String) (hnd : pending.Nodup) :
    (rejectPendingRequests pending connectionLostError).1 = [] ∧
    (rejectPendingRequests pending connectionLostError).2 =
      pending.map (fun requestId => (requestId, connectionLostError)) ∧
    (∀ requestId ∈ pending,
      ((rejectPendingRequests pending connectionLostError).2.filter
        (fun r => r.1 = requestId)).length = 1) ∧
    (∀ r ∈ (rejectPendingRequests pending connectionLostError).2,
      r.2 = connectionLostError) := by
  have hfold := rejectPending_foldl connectionLostError pending pending []
  have h1 : (rejectPendingRequests pending connectionLostError).1 = [] := by
    rw [rejectPendingRequests, hfold]
    simp only [List.nil_append]
    apply List.filter_eq_nil.mpr
    intro a ha
    simp [ha]
  have h2 : (rejectPendingRequests pending connectionLostError).2 =
      pending.map (fun requestId => (requestId, connectionLostError)) := by
    rw [rejectPendingRequests, hfold]
    simp
  refine ⟨h1, h2, ?_, ?_⟩
  · intro requestId hmem
    rw [h2]
    clear hfold h1 h2
    induction pending with
    | nil => cases hmem
    | cons x xs ih =>
      rcases List.nodup_cons.mp hnd with ⟨hx, hxs⟩
      rw [List.map_cons, List.filter_cons]
      by_cases hxid : x = requestId
      · subst hxid
        have htail : (xs.map (fun i => (i, connectionLostError))).filter
            (fun r => r.1 = x) = [] := by
          apply List.filter_eq_nil.mpr
          intro r hr
          rcases List.mem_map.mp hr with ⟨i, hi, rfl⟩
          simp only [decide_eq_true_eq]
          intro hcontr
          exact hx (hcontr ▸ hi)
        simp [htail]
      · have hmem' : requestId ∈ xs := by
          rcases List.mem_cons.mp hmem with h | h
          · exact absurd h.symm hxid
          · exact h
        have : (decide ((x, connectionLostError).1 = requestId)) = false := by
          simp [hxid]
        rw [this]
        exact ih hxs hmem'
  · intro r hr
    rw [h2] at hr
    rcases List.mem_map.mp hr with ⟨i, _, rfl⟩
    rfl

/-- Witness for C5: two pending calls are both rejected once and the map
is emptied. -/
theorem disconnect_rejects_all_pending_witness :
    (rejectPendingRequests ["a", "b"] connectionLostError).1 = [] ∧
    (rejectPendingRequests ["a", "b"] connectionLostError).2 =
      ["a", "b"].map (fun requestId => (requestId, connectionLostError)) ∧
    (∀ requestId ∈ ["a", "b"],
      ((rejectPendingRequests ["a", "b"] connectionLostError).2.filter
        (fun r => r.1 = requestId)).length = 1) ∧
    (∀ r ∈ (rejectPendingRequests ["a", "b"] connectionLostError).2,
      r.2 = connectionLostError) :=
  disconnect_rejects_all_pending ["a", "b"] (by decide)

/-- C8 (code evidence): `stop()` does clear the reconnect timer, and the
subsequent `close` event does reject the pending calls — but the `close`
handler then re-arms the reconnect timer unconditionally, and when that
timer fires a new connection is initiated.  The source keeps no
"stopped" flag, so an explicit stop is followed by a reconnect. -/
theorem stop_then_reconnect_happens :
    (runClient connectedClientFixture [ClientEvent.stopCall]).reconnectTimerSet = false ∧
    (runClient connectedClientFixture
      [ClientEvent.stopCall, ClientEvent.socketClosed]).rejectedCalls =
      [("req-1", connectionLostError)] ∧
    (runClient connectedClientFixture
      [ClientEvent.stopCall, ClientEvent.socketClosed]).reconnectTimerSet = true ∧
    (runClient connectedClientFixture
      [ClientEvent.stopCall, ClientEvent.socketClosed,
        ClientEvent.reconnectTimerFired]).connectCount =
      connectedClientFixture.connectCount + 1 := by
  refine ⟨rfl, rfl, rfl, rfl⟩

/-- Inbound dispatch performs no store mutation when the normalizer
drops the frame. -/
theorem inbound_dispatch_drops_unrecognized (st : StoreState) (msg : Json)
    (h : normalizeGatewayEvent (inboundMessageType msg) msg = none) :
    handleInboundEvent st msg = ⟨[], [], [], false⟩ := by
  simp only [handleInboundEvent, h]

/-- C9 (amended): the inbound dispatch mutates the store only for the
delegation resolved by the lookup (run id, then session key, then
latest-for-card fallback): an unresolvable frame is dropped as orphaned
with no mutation, and when a delegation is resolved every session write,
card move and audit append targets that delegation — which, via the
session-key and card fallbacks, may still lack a `runId`. -/
theorem inbound_dispatch_targets_resolved (st : StoreState) (msg : Json) :
    (∀ ev, normalizeGatewayEvent (inboundMessageType msg) msg = some ev →
      findDelegationForMessage st (jsonAsString (inboundRunId msg))
        (jsonAsString (inboundSessionKey msg)) = none →
      handleInboundEvent st msg = ⟨[], [], [], true⟩) ∧
    (∀ ev d, normalizeGatewayEvent (inboundMessageType msg) msg = some ev →
      findDelegationForMessage st (jsonAsString (inboundRunId msg))
        (jsonAsString (inboundSessionKey msg)) = some d →
      (handleInboundEvent st msg).attachWrites.map (fun w => w.delegationId) = [d.id] ∧
      (handleInboundEvent st msg).auditAppends = [⟨d.cardId, ev.eventKey⟩] ∧
      (∀ mv ∈ (handleInboundEvent st msg).cardMoves, mv.1 = d.cardId)) := by
  constructor
  · intro ev hev hfind
    simp only [handleInboundEvent, hev, hfind]
  · intro ev d hev hfind
    have hrun : handleInboundEvent st msg =
        ⟨[{ delegationId := d.id
            runId := jsonAsString (inboundRunId msg)
            status := ev.delegationStatus
            externalStatus := ev.externalStatus
            sessionId := msg.get2? "payload" "sessionId"
            sessionKey := jsonAsString (inboundSessionKey msg) }],
          (match ev.stageUpdate with
           | none => []
           | some stageUpdate =>
             match maybeMoveCardStage (getCard st d.cardId) stageUpdate with
             | some target => [(d.cardId, target)]
             | none => []),
          [⟨d.cardId, ev.eventKey⟩], false⟩ := by
      simp only [handleInboundEvent, hev, hfind]
    rw [hrun]
    refine ⟨rfl, rfl, ?_⟩
    intro mv hmv
    rcases hsu : ev.stageUpdate with _ | stageUpdate
    · simp only [hsu] at hmv
      cases hmv
    · simp only [hsu] at hmv
      rcases hmc : maybeMoveCardStage (getCard st d.cardId) stageUpdate with _ | target
      · simp only [hmc] at hmv
        cases hmv
      · simp only [hmc] at hmv
        rcases List.mem_singleton.mp hmv with rfl
        rfl

/-- Witness for C9's amended theorem: the concrete runless-store push
resolves delegation 1 and every write targets it. -/
theorem inbound_dispatch_targets_resolved_witness :
    (handleInboundEvent runlessStore sessionCompletedPush).attachWrites.map
      (fun w => w.delegationId) = [runlessDelegation.id] ∧
    (handleInboundEvent runlessStore sessionCompletedPush).auditAppends =
      [⟨runlessDelegation.cardId, "agent.completed"⟩] ∧
    (∀ mv ∈ (handleInboundEvent runlessStore sessionCompletedPush).cardMoves,
      mv.1 = runlessDelegation.cardId) := by
  have h := (inbound_dispatch_targets_resolved runlessStore sessionCompletedPush).2
    { eventKey := "agent.completed"
      stageUpdate := some Stage.review
      delegationStatus := some "completed"
      externalStatus := some (.str "completed")
      actorAgentId := none
      payload := toJsonSafePayload sessionCompletedPush }
    runlessDelegation (by decide) (by decide)
  exact ⟨h.1.trans (by decide), h.2.1.trans (by decide), h.2.2⟩

/-- Counterexample to C9 as stated: a delegation with no `runId`
receives an inbound push event.  The store holds one freshly created
delegation (no run id, no session key); a `session.completed` push whose
session key embeds the card id is resolved through the latest-for-card
fallback, and the dispatch updates that delegation, moves its card to
review and appends an audit entry. -/
theorem runless_delegation_receives_event :
    runlessDelegation.runId = none ∧
    (handleInboundEvent runlessStore sessionCompletedPush).attachWrites.map
      (fun w => w.delegationId) = [1] ∧
    (handleInboundEvent runlessStore sessionCompletedPush).cardMoves =
      [(orphanCardId, Stage.review)] ∧
    (handleInboundEvent runlessStore sessionCompletedPush).auditAppends =
      [⟨orphanCardId, "agent.completed"⟩] := by
  refine ⟨rfl, by decide, by decide, by decide⟩

/-- A mismatch-classified rejection records the error and moves on to the
next candidate. -/
theorem spawnLoop_cons_mismatch (attempt : String → RequestOutcome)
    (c : SessionKeyCandidate) (rest : List SessionKeyCandidate)
    (lastE : Option GErr) (tried : List String) (e : GErr)
    (he : attempt c.key = .rejected e) (hm : isAgentMismatchError e = true) :
    spawnLoop attempt (c :: rest) lastE tried =
      spawnLoop attempt rest (some e) (tried ++ [c.key]) := by
  simp [spawnLoop, he, hm]

/-- A rejection not classified as a mismatch is rethrown at once: no
further candidate is attempted. -/
theorem spawnLoop_cons_abort (attempt : String → RequestOutcome)
    (c : SessionKeyCandidate) (rest : List SessionKeyCandidate)
    (lastE : Option GErr) (tried : List String) (e : GErr)
    (he : attempt c.key = .rejected e) (hm : isAgentMismatchError e = false) :
    spawnLoop attempt (c :: rest) lastE tried =
      ⟨none, none, some e, some e, tried ++ [c.key]⟩ := by
  simp [spawnLoop, he, hm]

/-- A resolution breaks out of the loop with the candidate's label; no
further candidate is attempted. -/
theorem spawnLoop_cons_resolved (attempt : String → RequestOutcome)
    (c : SessionKeyCandidate) (rest : List SessionKeyCandidate)
    (lastE : Option GErr) (tried : List String) (r : Option Json)
    (he : attempt c.key = .resolved r) :
    spawnLoop attempt (c :: rest) lastE tried =
      ⟨r, some c.label, lastE, none, tried ++ [c.key]⟩ := by
  simp [spawnLoop, he]

/-- A nonempty list has a last element. -/
theorem getLast?_cons_isSome (c : SessionKeyCandidate) (l : List SessionKeyCandidate) :
    ∃ x, (c :: l).getLast? = some x := by
  induction l generalizing c with
  | nil => exact ⟨c, rfl⟩
  | cons c2 l2 ih =>
    rw [List.getLast?_cons_cons]
    exact ih c2

/-- Running the loop through a prefix of mismatch-failing candidates
records their keys as attempted and carries the last mismatch error
forward. -/
theorem spawnLoop_skips_mismatches (attempt : String → RequestOutcome) :
    ∀ (pre suffix : List SessionKeyCandidate) (lastE : Option GErr) (tried : List String),
    (∀ c ∈ pre, ∃ e, attempt c.key = .rejected e ∧ isAgentMismatchError e = true) →
    spawnLoop attempt (pre ++ suffix) lastE tried =
      spawnLoop attempt suffix
        (match pre.getLast? with
         | none => lastE
         | some cp => rejectedError (attempt cp.key))
        (tried ++ pre.map (fun c => c.key)) := by
  intro pre
  induction pre with
  | nil =>
    intro suffix lastE tried _
    simp
  | cons c rest ih =>
    intro suffix lastE tried h
    obtain ⟨e, he, hm⟩ := h c (List.mem_cons_self c rest)
    rw [List.cons_append, spawnLoop_cons_mismatch attempt c (rest ++ suffix) lastE tried e he hm,
      ih suffix (some e) (tried ++ [c.key]) (fun c' hc' => h c' (List.mem_cons_of_mem c hc'))]
    cases rest with
    | nil => simp [rejectedError, he]
    | cons c2 rest2 =>
      obtain ⟨x, hx⟩ := getLast?_cons_isSome c2 rest2
      simp [List.getLast?_cons_cons, hx]

/-- The de-duplication filter yields a sublist (order is preserved). -/
theorem filterSeenKeys_sublist (l : List SessionKeyCandidate) :
    ∀ seen, List.Sublist (filterSeenKeys seen l) l := by
  induction l with
  | nil =>
    intro seen
    exact List.Sublist.refl _
  | cons c rest ih =>
    intro seen
    rw [filterSeenKeys]
    by_cases h : c.key ∈ seen
    · rw [if_pos h]
      exact (ih seen).trans (List.sublist_cons_self c rest)
    · rw [if_neg h]
      exact (ih (c.key :: seen)).cons₂ c

/-- The de-duplication filter leaves no duplicate keys, and keeps no key
already seen. -/
theorem filterSeenKeys_nodup_keys (l : List SessionKeyCandidate) : ∀ seen,
    ((filterSeenKeys seen l).map (fun c => c.key)).Nodup ∧
    ∀ c ∈ filterSeenKeys seen l, c.key ∉ seen := by
  induction l with
  | nil =>
    intro seen
    exact ⟨List.nodup_nil, by intro c hc; cases hc⟩
  | cons c rest ih =>
    intro seen
    rw [filterSeenKeys]
    by_cases h : c.key ∈ seen
    · rw [if_pos h]
      exact ih seen
    · rw [if_neg h]
      obtain ⟨hnd, hdisj⟩ := ih (c.key :: seen)
      refine ⟨?_, ?_⟩
      · rw [List.map_cons, List.nodup_cons]
        refine ⟨?_, hnd⟩
        intro hmem
        rcases List.mem_map.mp hmem with ⟨c', hc', hkey⟩
        exact hdisj c' hc' (hkey ▸ List.mem_cons_self c.key seen)
      · intro c' hc'
        rcases List.mem_cons.mp hc' with rfl | hc'
        · exact h
        · intro hmem
          exact hdisj c' hc' (List.mem_cons_of_mem _ hmem)

/-- Every key of the input list survives de-duplication (on some
candidate), unless it was already seen. -/
theorem filterSeenKeys_covers (l : List SessionKeyCandidate) : ∀ seen, ∀ c ∈ l,
    c.key ∈ seen ∨ ∃ c' ∈ filterSeenKeys seen l, c'.key = c.key := by
  induction l with
  | nil =>
    intro seen c hc
    cases hc
  | cons x rest ih =>
    intro seen c hc
    rw [filterSeenKeys]
    by_cases h : x.key ∈ seen
    · rw [if_pos h]
      rcases List.mem_cons.mp hc with rfl | hc'
      · exact Or.inl h
      · exact ih seen c hc'
    · rw [if_neg h]
      rcases List.mem_cons.mp hc with rfl | hc'
      · exact Or.inr ⟨c, List.mem_cons_self _ _, rfl⟩
      · rcases ih (x.key :: seen) c hc' with hmem | ⟨c', hc'', hkey⟩
        · rcases List.mem_cons.mp hmem with heq | hmem'
          · exact Or.inr ⟨x, List.mem_cons_self _ _, heq.symm⟩
          · exact Or.inl hmem'
        · exact Or.inr ⟨c', List.mem_cons_of_mem _ hc'', hkey⟩

/-- With a configured endpoint and an advertised `agent` method,
`spawnDelegation` is the candidate loop followed by `spawnFinish`. -/
theorem spawnDelegation_connected (env : SpawnEnv) (input : SpawnInput)
    (hend : env.endpointConfigured = true)
    (hsup : "agent" ∈ env.supportedMethods) :
    spawnDelegation env input =
      spawnFinish env input (getSessionKeyFormats env.preferred input.cardId input.agentId)
        (spawnLoop env.attempt
          (getSessionKeyFormats env.preferred input.cardId input.agentId) none []) := by
  have hens : ensureMethod env.supportedMethods "agent" = none := by
    simp [ensureMethod, hsup]
  simp [spawnDelegation, hend, hens]

/-- A truthy value is kept by `??`. -/
theorem jsOrElse_some_truthy (v : Json) (b : Option Json) (h : v.truthy = true) :
    jsOrElse (some v) b = some v := by
  cases v <;> simp_all [jsOrElse, Json.truthy]

/-- C1 (amended): spawn negotiation over the key-format candidates.  The
candidate list is de-duplicated by key, ordered preferred-first then
`agent_card`, `agentid_card`, `legacy`, and covers every nonempty
candidate key.  The loop moves to the next candidate exactly on a
mismatch-classified error and rethrows any other error at once with no
further attempt and nothing persisted.  On the first success the format
label, the mandatory (truthy) run id and the optional session id from
the reply are persisted, together with the reply's session key when the
reply carries one — falling back to the attempted candidate's key only
when it does not.  When every candidate fails with mismatch errors, the
last mismatch error is rethrown if it is an `Error` instance; otherwise
a fresh generic `all session key formats failed` error is thrown. -/
theorem spawn_negotiation_amended (env : SpawnEnv) (input : SpawnInput) :
    ((getSessionKeyFormats env.preferred input.cardId input.agentId).map
      (fun c => c.key)).Nodup ∧
    List.Sublist (getSessionKeyFormats env.preferred input.cardId input.agentId)
      ((resolvePreferredSessionKeyCandidate env.preferred input.cardId input.agentId).toList ++
        [⟨.agent_card, "agent:" ++ input.agentId ++ ":card:" ++ input.cardId⟩,
         ⟨.agentid_card, input.agentId ++ ":card:" ++ input.cardId⟩,
         ⟨.legacy, "agent:" ++ input.agentId ++ ":" ++ input.cardId⟩]) ∧
    (∀ cand ∈
        (resolvePreferredSessionKeyCandidate env.preferred input.cardId input.agentId).toList ++
          [⟨.agent_card, "agent:" ++ input.agentId ++ ":card:" ++ input.cardId⟩,
           ⟨.agentid_card, input.agentId ++ ":card:" ++ input.cardId⟩,
           ⟨.legacy, "agent:" ++ input.agentId ++ ":" ++ input.cardId⟩],
      cand.key ≠ "" →
      ∃ c' ∈ getSessionKeyFormats env.preferred input.cardId input.agentId,
        c'.key = cand.key) ∧
    (∀ pre c post, env.endpointConfigured = true → "agent" ∈ env.supportedMethods →
      getSessionKeyFormats env.preferred input.cardId input.agentId = pre ++ c :: post →
      (∀ c' ∈ pre, ∃ e, env.attempt c'.key = .rejected e ∧ isAgentMismatchError e = true) →
      ∀ e, env.attempt c.key = .rejected e → isAgentMismatchError e = false →
      (spawnDelegation env input).result = .thrownErr e ∧
      (spawnDelegation env input).sessionWrites = [] ∧
      (spawnDelegation env input).attemptedKeys = (pre ++ [c]).map (fun c' => c'.key)) ∧
    (∀ pre c post, env.endpointConfigured = true → "agent" ∈ env.supportedMethods →
      getSessionKeyFormats env.preferred input.cardId input.agentId = pre ++ c :: post →
      (∀ c' ∈ pre, ∃ e, env.attempt c'.key = .rejected e ∧ isAgentMismatchError e = true) →
      ∀ r, env.attempt c.key = .resolved (some r) → r.truthy = true →
      ∀ runIdV, jsTruthyVal (jsOrElse (r.get2? "payload" "runId") (r.get? "runId")) =
        some runIdV →
      ∀ skV, jsOrElse (jsOrElse (r.get? "sessionKey") (r.get2? "payload" "sessionKey"))
          (r.get2? "payload" "childSessionKey") = some skV → skV.truthy = true →
      (spawnDelegation env input).sessionWrites =
        [⟨input.delegationId, runIdV, skV,
          jsOrElse (r.get2? "payload" "sessionId") (r.get? "sessionId"), c.label⟩] ∧
      (spawnDelegation env input).attemptedKeys = (pre ++ [c]).map (fun c' => c'.key)) ∧
    (∀ pre c post, env.endpointConfigured = true → "agent" ∈ env.supportedMethods →
      getSessionKeyFormats env.preferred input.cardId input.agentId = pre ++ c :: post →
      (∀ c' ∈ pre, ∃ e, env.attempt c'.key = .rejected e ∧ isAgentMismatchError e = true) →
      ∀ r, env.attempt c.key = .resolved (some r) → r.truthy = true →
      ∀ runIdV, jsTruthyVal (jsOrElse (r.get2? "payload" "runId") (r.get? "runId")) =
        some runIdV →
      jsOrElse (jsOrElse (r.get? "sessionKey") (r.get2? "payload" "sessionKey"))
        (r.get2? "payload" "childSessionKey") = none →
      (getSessionKeyFormats env.preferred input.cardId input.agentId).find?
        (fun c2 => c2.label = c.label) = some c →
      c.key ≠ "" →
      (spawnDelegation env input).sessionWrites =
        [⟨input.delegationId, runIdV, Json.str c.key,
          jsOrElse (r.get2? "payload" "sessionId") (r.get? "sessionId"), c.label⟩]) ∧
    (∀ cl el, env.endpointConfigured = true → "agent" ∈ env.supportedMethods →
      (∀ c' ∈ getSessionKeyFormats env.preferred input.cardId input.agentId,
        ∃ e, env.attempt c'.key = .rejected e ∧ isAgentMismatchError e = true) →
      (getSessionKeyFormats env.preferred input.cardId input.agentId).getLast? = some cl →
      env.attempt cl.key = .rejected el →
      (spawnDelegation env input).result =
        (if el.isErrorInstance then SpawnResult.thrownErr el
         else SpawnResult.thrownNew "all session key formats failed") ∧
      (spawnDelegation env input).sessionWrites = [] ∧
      (spawnDelegation env input).attemptedKeys =
        (getSessionKeyFormats env.preferred input.cardId input.agentId).map
          (fun c' => c'.key)) := by
  refine ⟨?_, ?_, ?_, ?_, ?_, ?_, ?_⟩
  · exact (filterSeenKeys_nodup_keys _ []).1
  · exact (filterSeenKeys_sublist _ []).trans (List.filter_sublist _)
  · intro cand hcand hkey
    have hmem : cand ∈
        (((resolvePreferredSessionKeyCandidate env.preferred input.cardId
            input.agentId).toList ++
          ([{ label := SessionKeyFormatLabel.agent_card,
              key := buildDelegationSessionKey input.cardId input.agentId },
            { label := SessionKeyFormatLabel.agentid_card,
              key := input.agentId ++ ":card:" ++ input.cardId },
            { label := SessionKeyFormatLabel.legacy,
              key := "agent:" ++ input.agentId ++ ":" ++ input.cardId }] :
            List SessionKeyCandidate)).filter
          (fun c => c.key ≠ "")) :=
      List.mem_filter.mpr ⟨hcand, by simp [hkey]⟩
    rcases filterSeenKeys_covers _ [] cand hmem with h | h
    · cases h
    · exact h
  · intro pre c post hend hsup hform hpre e he hm
    have hconn := spawnDelegation_connected env input hend hsup
    rw [hform] at hconn
    rw [spawnLoop_skips_mismatches env.attempt pre (c :: post) none [] hpre,
      spawnLoop_cons_abort env.attempt c post _ _ e he hm] at hconn
    rw [hconn]
    refine ⟨by simp [spawnFinish], by simp [spawnFinish], by simp [spawnFinish]⟩
  · intro pre c post hend hsup hform hpre r hr htr runIdV hrun skV hsk hskt
    have hconn := spawnDelegation_connected env input hend hsup
    rw [hform] at hconn
    rw [spawnLoop_skips_mismatches env.attempt pre (c :: post) none [] hpre,
      spawnLoop_cons_resolved env.attempt c post _ _ (some r) hr] at hconn
    rw [hconn]
    have hfsk : jsOrElse (jsOrElse (jsOrElse (r.get? "sessionKey")
        (r.get2? "payload" "sessionKey")) (r.get2? "payload" "childSessionKey"))
        ((((pre ++ c :: post).find? (fun c2 => c2.label = c.label)).map
          (fun c' => c'.key)).map Json.str) = some skV := by
      rw [hsk]
      exact jsOrElse_some_truthy skV _ hskt
    have hskv : jsTruthyVal (some skV) = some skV := by
      simp [jsTruthyVal, hskt]
    constructor
    · simp only [spawnFinish, htr, eq_self_iff_true, if_true, hrun, hfsk, hskv]
      rcases hwait : env.supportedMethods.contains "agent.wait" with _ | _ <;>
        rcases hout : env.agentWaitOutcome with _ | _ <;>
        simp [hwait, hout]
    · simp only [spawnFinish, htr, eq_self_iff_true, if_true, hrun, hfsk, hskv]
      rcases hwait : env.supportedMethods.contains "agent.wait" with _ | _ <;>
        rcases hout : env.agentWaitOutcome with _ | _ <;>
        simp [hwait, hout]
  · intro pre c post hend hsup hform hpre r hr htr runIdV hrun hsk hfind hkey
    have hconn := spawnDelegation_connected env input hend hsup
    rw [hform] at hconn
    rw [spawnLoop_skips_mismatches env.attempt pre (c :: post) none [] hpre,
      spawnLoop_cons_resolved env.attempt c post _ _ (some r) hr] at hconn
    rw [hform] at hfind
    rw [hconn]
    have hfsk : jsOrElse (jsOrElse (jsOrElse (r.get? "sessionKey")
        (r.get2? "payload" "sessionKey")) (r.get2? "payload" "childSessionKey"))
        ((((pre ++ c :: post).find? (fun c2 => c2.label = c.label)).map
          (fun c' => c'.key)).map Json.str) = some (Json.str c.key) := by
      rw [hsk, hfind]
      rfl
    have hstrk : jsTruthyVal (some (Json.str c.key)) = some (Json.str c.key) := by
      simp [jsTruthyVal, Json.truthy, hkey]
    simp only [spawnFinish, htr, eq_self_iff_true, if_true, hrun, hfsk, hstrk]
    rcases hwait : env.supportedMethods.contains "agent.wait" with _ | _ <;>
      rcases hout : env.agentWaitOutcome with _ | _ <;>
      simp [hwait, hout]
  · intro cl el hend hsup hall hlast hrej
    have hconn := spawnDelegation_connected env input hend hsup
    have hl := spawnLoop_skips_mismatches env.attempt
      (getSessionKeyFormats env.preferred input.cardId input.agentId) [] none [] hall
    rw [List.append_nil, hlast] at hl
    simp only [hrej, rejectedError] at hl
    rw [hl] at hconn
    rw [hconn]
    rcases hins : el.isErrorInstance with _ | _ <;>
      refine ⟨by simp [spawnFinish, spawnLoop, hins], by simp [spawnFinish, spawnLoop, hins],
        by simp [spawnFinish, spawnLoop, hins]⟩

/-- Witness for C1's amended theorem: against a gateway rejecting every
format with a plain-object mismatch error, negotiation attempts all
three candidate keys, persists nothing, and ends in the generic
exhaustion error (the last mismatch error is not an `Error`
instance). -/
theorem spawn_negotiation_amended_witness :
    (spawnDelegation allMismatchSpawnEnv spawnFixtureInput).result =
      (if plainMismatchError.isErrorInstance then SpawnResult.thrownErr plainMismatchError
       else SpawnResult.thrownNew "all session key formats failed") ∧
    (spawnDelegation allMismatchSpawnEnv spawnFixtureInput).sessionWrites = [] ∧
    (spawnDelegation allMismatchSpawnEnv spawnFixtureInput).attemptedKeys =
      (getSessionKeyFormats allMismatchSpawnEnv.preferred spawnFixtureInput.cardId
        spawnFixtureInput.agentId).map (fun c' => c'.key) :=
  (spawn_negotiation_amended allMismatchSpawnEnv spawnFixtureInput).2.2.2.2.2.2
    ⟨.legacy, "agent:a:c"⟩ plainMismatchError rfl (by decide)
    (fun c _ => ⟨plainMismatchError, rfl, by decide⟩) (by decide) rfl

/-- Counterexample to C1 as stated.  First: every candidate fails with
the same mismatch-classified error, yet the thrown error is a fresh
generic `all session key formats failed` error, not the last mismatch
error (gateway error replies are plain objects, never `Error`
instances, and `lastError instanceof Error` fails for them).  Second: a
success whose reply carries its own session key persists the reply's
key (`remote-key`), not the successful attempt's key
(`agent:a:card:c`). -/
theorem spawn_negotiation_counterexample :
    getSessionKeyFormats none "c" "a" =
      [⟨.agent_card, "agent:a:card:c"⟩, ⟨.agentid_card, "a:card:c"⟩,
        ⟨.legacy, "agent:a:c"⟩] ∧
    isAgentMismatchError plainMismatchError = true ∧
    allMismatchSpawnEnv.attempt "agent:a:c" = .rejected plainMismatchError ∧
    (spawnDelegation allMismatchSpawnEnv spawnFixtureInput).result =
      SpawnResult.thrownNew "all session key formats failed" ∧
    (spawnDelegation allMismatchSpawnEnv spawnFixtureInput).result ≠
      SpawnResult.thrownErr plainMismatchError ∧
    remoteKeyedSpawnEnv.attempt "agent:a:card:c" = .resolved (some remoteKeyedResponse) ∧
    (spawnDelegation remoteKeyedSpawnEnv spawnFixtureInput).attemptedKeys =
      ["agent:a:card:c"] ∧
    (spawnDelegation remoteKeyedSpawnEnv spawnFixtureInput).sessionWrites =
      [⟨1, Json.str "r-1", Json.str "remote-key", none, .agent_card⟩] ∧
    Json.str "remote-key" ≠ Json.str "agent:a:card:c" := by
  refine ⟨by decide, by decide, rfl, by decide, by decide, rfl, by decide, by decide, by decide⟩

end Clawtrello
